import Mathlib

/-!
# Texo raw-data extraction tool: embedding of `src/main.cpp`

The program is a sequential script around the Texo hardware library.  The
embedding threads the program's global variables through every function as a
record (`Globals`) and records every call to the hardware library, to the log
file and to the file system in `Globals.trace`, oldest call first.  The
replies of the hardware and of the file system are not computed by the
program: they are read from an oracle (`Hardware`) whose entries are indexed
by the length of the trace at the moment of the call, so that every call may
be answered differently.

Console output (`printf` to `stdout`) and `Sleep` do not touch the program
state and are left out of the trace.
-/

namespace Texo

/-! ## C arithmetic on `int` -/

/-- Value of a C `int` after an arithmetic result is stored in 32 bits
(two's complement wrap-around). -/
def wrap32 (x : Int) : Int := (x + 2147483648) % 4294967296 - 2147483648

/-- The C expression `a << c` on `int`, for a shift count `0 ≤ c < 32`
(other counts are undefined in C). -/
def shl32 (a c : Int) : Int := wrap32 (a * 2 ^ c.toNat)

/-- A C `double` holding the rational `num / den`. -/
structure Double where
  num : Int
  den : Nat
deriving DecidableEq, Repr

/-- The C expression `n + 0.5` for an `int n`, exact in a `double`. -/
def plusHalf (n : Int) : Double := ⟨2 * n + 1, 2⟩

/-! ## Data handed to the hardware library -/

/-- Fields of `_texoTransmitParams` that `createSequence` fills. -/
structure TransmitParams where
  centerElement : Double
  aperture : Int
  focusDistance : Int
  angle : Int
  frequency : Int
  pulseShape : String
  txRepeat : Int
  txDelay : Int
  speedOfSound : Int
  useManualDelays : Int
  useMask : Int
  tableIndex : Int
  sync : Int
deriving DecidableEq, Repr

/-- The receive aperture curve `rx.rxAprCrv`. -/
structure AprCrv where
  top : Int
  mid : Int
  btm : Int
  vmid : Int
deriving DecidableEq, Repr

/-- Fields of `_texoReceiveParams` that `createSequence` fills; the two words
of `channelMask` are `channelMask0` and `channelMask1`. -/
structure ReceiveParams where
  centerElement : Double
  aperture : Int
  angle : Int
  maxApertureDepth : Int
  acquisitionDepth : Int
  saveDelay : Int
  speedOfSound : Int
  channelMask0 : Int
  channelMask1 : Int
  applyFocus : Int
  useManualDelays : Int
  decimation : Int
  lgcValue : Int
  tgcSel : Int
  tableIndex : Int
  customLineDuration : Int
  weightType : Int
  rxAprCrv : AprCrv
deriving DecidableEq, Repr

/-- An argument of a `fprintf` call; `clock` is a field of `localTime`. -/
inductive Arg where
  | int (v : Int)
  | str (s : String)
  | real (d : Double)
  | clock (field : String)
deriving DecidableEq, Repr

/-- One call that leaves the program: to the Texo library, to the C file
functions, or to the clock.  `fopen` carries whether the file was opened;
`fprintf` is a write to `fpLog` and carries whether `fpLog` was non-NULL when
the call was made. -/
inductive Event where
  | GetLocalTime
  | texoInit (pci usm channels : Int)
  | texoSetCallback
  | texoClearTGCs
  | texoAddTGCFixed
  | texoSetPower (power : Int)
  | texoGetProbeCode (connector : Int)
  | texoSelectProbe (probeId : Int)
  | texoActivateProbeConnector (connector : Int)
  | texoGetProbeName (connector : Int)
  | texoGetProbeCenterFreq
  | texoGetProbeNumElements
  | texoBeginSequence
  | texoAddLine (tx : TransmitParams) (rx : ReceiveParams)
  | texoEndSequence
  | texoGetFrameSize
  | texoGetFrameRate
  | texoGetMaxFrameCount
  | texoRunImage
  | texoStopImage
  | texoGetCollectedFrameCount
  | texoGetCineStart (frame : Int)
  | texoShutdown
  | fopen (name mode : String) (opened : Bool)
  | fclose (name : String)
  | fwrite (name : String) (size count : Int)
  | fprintf (fpLogValid : Bool) (fmt : String) (args : List Arg)
  | fflush (fpLogValid : Bool)
deriving DecidableEq, Repr

/-- Replies of the hardware library and of the file system, indexed by the
number of calls made before the one being answered.  `fopenRead` gives the
text of a file opened for reading, `none` when it cannot be opened;
`fopenWrite` tells whether a file can be created. -/
structure Hardware where
  texoInit : Nat → Bool
  texoGetProbeCode : Nat → Int
  texoSelectProbe : Nat → Bool
  texoActivateProbeConnector : Nat → Bool
  texoGetProbeName : Nat → String
  texoGetProbeCenterFreq : Nat → Int
  texoGetProbeNumElements : Nat → Int
  texoBeginSequence : Nat → Bool
  texoAddLine : Nat → Bool
  texoEndSequence : Nat → Int
  texoGetFrameSize : Nat → Int
  texoGetFrameRate : Nat → Double
  texoGetMaxFrameCount : Nat → Int
  texoRunImage : Nat → Bool
  texoStopImage : Nat → Bool
  texoGetCollectedFrameCount : Nat → Int
  fopenRead : Nat → String → Option String
  fopenWrite : Nat → String → Bool

/-! ## Global variables -/

/-- The global variables of `main.cpp` with their initial values, and the
trace of calls made so far.  `fpLog` is `true` when the C pointer is
non-NULL. -/
structure Globals where
  running : Bool := false
  validprobe : Bool := false
  validsequence : Bool := false
  singleTx : Bool := false
  singleRx : Bool := false
  phasedArray : Bool := false
  planeWave : Bool := false
  flashlight : Bool := false
  power : Int := 10
  channels : Int := 64
  connector : Int := 0
  scanline : Int := 0
  numOfScanlines : Int := 0
  scanline_buf : String := ""
  probeId : Int := 11
  logFileName : String := ""
  fpLog : Bool := false
  trace : List Event := []
deriving Repr

/-- Number of calls made so far: the index of the next oracle entry. -/
def Globals.now (g : Globals) : Nat := g.trace.length

/-- Record one call. -/
def Globals.emit (g : Globals) (e : Event) : Globals :=
  { g with trace := g.trace ++ [e] }

/-- The call `fprintf(fpLog, fmt, args...)`. -/
def Globals.log (g : Globals) (fmt : String) (args : List Arg) : Globals :=
  g.emit (.fprintf g.fpLog fmt args)

/-- The C macro `MAX_SAVED_FRAMES`. -/
def MAX_SAVED_FRAMES : Int := 16

/-- The C macro `COMPOUND_ANGLE`. -/
def COMPOUND_ANGLE : Int := 0

/-- Element `i` of `argv`. -/
def argvAt (argv : List String) (i : Nat) : String := argv.getD i ""

/-! ## `fscanf(fpCfg, "%d%d%d%s%d%d", ...)` -/

/-- The C `isspace` in the "C" locale. -/
def isspace (c : Char) : Bool := c.toNat == 32 || (9 ≤ c.toNat && c.toNat ≤ 13)

/-- The C `isdigit`. -/
def isdigit (c : Char) : Bool := 48 ≤ c.toNat && c.toNat ≤ 57

/-- Leading white space is skipped by `%d` and by `%s`. -/
def skipSpace : List Char → List Char
  | [] => []
  | c :: cs => if isspace c then skipSpace cs else c :: cs

/-- Value of the longest run of decimal digits at the head of the input, and
the input after it. -/
def digitsValue : List Char → Nat → Nat × List Char
  | [], acc => (acc, [])
  | c :: cs, acc =>
    if isdigit c then digitsValue cs (acc * 10 + (c.toNat - 48)) else (acc, c :: cs)

/-- The conversion `%d`: white space, an optional sign, at least one digit.
`none` is a failed conversion (end of input or no digit).  A literal outside
the range of `int` is undefined in C; here it is wrapped to 32 bits. -/
def scanInt (input : List Char) : Option (Int × List Char) :=
  let s := skipSpace input
  let signed : Bool × List Char :=
    match s with
    | [] => (false, [])
    | c :: cs => if c == '-' then (true, cs) else if c == '+' then (false, cs) else (false, c :: cs)
  match signed.2 with
  | [] => none
  | c :: cs =>
    if isdigit c then
      let r := digitsValue (c :: cs) 0
      some (wrap32 (if signed.1 then -(r.1 : Int) else (r.1 : Int)), r.2)
    else none

/-- Longest run of characters that are not white space. -/
def takeWord : List Char → List Char × List Char
  | [] => ([], [])
  | c :: cs =>
    if isspace c then ([], c :: cs)
    else ((c :: (takeWord cs).1), (takeWord cs).2)

/-- The conversion `%s`: white space, then a non-empty run of characters that
are not white space.  (A word longer than the destination buffer overruns it
in C; the model keeps the whole word.) -/
def scanStr (input : List Char) : Option (String × List Char) :=
  match skipSpace input with
  | [] => none
  | c :: cs => some (String.mk (takeWord (c :: cs)).1, (takeWord (c :: cs)).2)

/-- The six local variables of `createSequence` that `fscanf` fills. -/
structure Config where
  txFocusDistance : Int := 0
  useCustomTxFrequency : Int := 0
  txFrequency : Int := 0
  txPulseShape : String := ""
  rxAcquisitionDepth : Int := 0
  rxDecimation : Int := 0
deriving DecidableEq, Repr

/-- The call `fscanf(fpCfg, "%d%d%d%s%d%d", ...)` on the text of the file:
the number of fields converted (the return value of `fscanf`, which the
program does not look at) and the six variables.  Conversion stops at the
first field that fails; the variables of the fields not reached keep their
initial value `0` (`txPulseShape` is not initialised in C and is modelled as
the empty string). -/
def fscanfConfig (input : List Char) : Nat × Config :=
  match scanInt input with
  | none => (0, {})
  | some (a, r1) =>
    match scanInt r1 with
    | none => (1, { txFocusDistance := a })
    | some (b, r2) =>
      match scanInt r2 with
      | none => (2, { txFocusDistance := a, useCustomTxFrequency := b })
      | some (c, r3) =>
        match scanStr r3 with
        | none => (3, { txFocusDistance := a, useCustomTxFrequency := b, txFrequency := c })
        | some (s, r4) =>
          match scanInt r4 with
          | none =>
            (4, { txFocusDistance := a, useCustomTxFrequency := b, txFrequency := c,
                  txPulseShape := s })
          | some (d, r5) =>
            match scanInt r5 with
            | none =>
              (5, { txFocusDistance := a, useCustomTxFrequency := b, txFrequency := c,
                    txPulseShape := s, rxAcquisitionDepth := d })
            | some (e, _) =>
              (6, { txFocusDistance := a, useCustomTxFrequency := b, txFrequency := c,
                    txPulseShape := s, rxAcquisitionDepth := d, rxDecimation := e })

/-! ## Probe selection and the run/stop controller -/

/-- The function `selectProbe(connector)`. -/
def selectProbe (hw : Hardware) (connector : Int) (g : Globals) : Bool × Globals :=
  let code := wrap32 (hw.texoGetProbeCode g.now)
  let g := g.emit (.texoGetProbeCode connector)
  let g := { g with probeId := code }
  let selected := hw.texoSelectProbe g.now
  let g := g.emit (.texoSelectProbe g.probeId)
  if selected then
    let activated := hw.texoActivateProbeConnector g.now
    let g := g.emit (.texoActivateProbeConnector connector)
    if !activated then (false, g)
    else (true, { g with validprobe := true })
  else (true, { g with validprobe := true })

/-- The function `run()`. -/
def run (hw : Hardware) (g : Globals) : Bool × Globals :=
  if !g.validsequence then (false, g)
  else if g.running then (false, g)
  else
    let started := hw.texoRunImage g.now
    let g := g.emit .texoRunImage
    if started then (true, { g with running := true })
    else (false, g)

/-- The function `stop()`.  The collected-frame count is queried twice, once
for the console and once for the log. -/
def stop (hw : Hardware) (g : Globals) : Bool × Globals :=
  let stopped := hw.texoStopImage g.now
  let g := g.emit .texoStopImage
  if stopped then
    let g := { g with running := false }
    let g := g.emit .texoGetCollectedFrameCount
    let count := wrap32 (hw.texoGetCollectedFrameCount g.now)
    let g := g.emit .texoGetCollectedFrameCount
    let g := g.log "\nSTOP - Acquired (%d) frames\n" [.int count]
    (true, g)
  else (false, { g with validsequence := false })

/-- The function `printStats()`. -/
def printStats (hw : Hardware) (g : Globals) : Globals :=
  let statsFrameSize := wrap32 (hw.texoGetFrameSize g.now)
  let g := g.emit .texoGetFrameSize
  let statsFrameRate := hw.texoGetFrameRate g.now
  let g := g.emit .texoGetFrameRate
  let statsFrameCount := wrap32 (hw.texoGetMaxFrameCount g.now)
  let g := g.emit .texoGetMaxFrameCount
  let g := g.log "\nSequence statistics:\n" []
  let g := g.log "Frame size = %d bytes\n" [.int statsFrameSize]
  let g := g.log "Frame rate = %.1f fr/sec\n" [.real statsFrameRate]
  g.log "Buffer size = %d frames\n\n" [.int statsFrameCount]

/-! ## Sequence builder -/

/-- The three range checks of `createSequence`, in the order of the source:
`none` when all pass, otherwise the first check that fails (1: focus
distance, 2: acquisition depth, 3: decimation). -/
def firstInvalid (cfg : Config) : Option Nat :=
  if cfg.txFocusDistance < 10 ∨ cfg.txFocusDistance > 300 then some 1
  else if cfg.rxAcquisitionDepth < 10 ∨ cfg.rxAcquisitionDepth > 300 then some 2
  else if cfg.rxDecimation < 0 ∨ cfg.rxDecimation > 2 then some 3
  else none

/-- The transmit parameters as set between the range checks and the geometry
block (`tx.centerElement = 0`, `tx.angle = 0` at that point). -/
def txParams (g : Globals) (cfg : Config) (frequency : Int) : TransmitParams :=
  { centerElement := ⟨0, 1⟩
    aperture := if g.singleTx then 0 else 64
    focusDistance := if g.singleTx then 300000 else wrap32 (1000 * cfg.txFocusDistance)
    angle := 0
    frequency := frequency
    pulseShape := cfg.txPulseShape
    txRepeat := 0
    txDelay := 100
    speedOfSound := 1540
    useManualDelays := if g.flashlight then 1 else 0
    useMask := 0
    tableIndex := -1
    sync := if g.flashlight then 1 else 0 }

/-- The receive parameters as set before the geometry block, with the window
type and aperture curve that the source sets after the log lines. -/
def rxParams (g : Globals) (cfg : Config) : ReceiveParams :=
  { centerElement := ⟨0, 1⟩
    aperture := g.channels
    angle := 0
    maxApertureDepth := 30000
    acquisitionDepth := wrap32 (cfg.rxAcquisitionDepth * 1000)
    saveDelay := 0
    speedOfSound := 1540
    channelMask0 := wrap32 4294967295
    channelMask1 := wrap32 4294967295
    applyFocus := 1
    useManualDelays := 0
    decimation := cfg.rxDecimation
    lgcValue := 0
    tgcSel := 0
    tableIndex := -1
    customLineDuration := if g.flashlight then 200000 else 0
    weightType := 1
    rxAprCrv := ⟨10, 50, 100, 50⟩ }

/-- The expression `min + (((max - min) * scanline) / (elements - 1))` with
`min = -45000`, `max = 45000`, every intermediate result an `int`; C division
truncates (`elements = 1` divides by zero, undefined in C). -/
def phasedAngle (scanline elements : Int) : Int :=
  wrap32 (-45000 + Int.tdiv (wrap32 ((45000 - -45000) * scanline)) (wrap32 (elements - 1)))

/-- The geometry block of `createSequence`: centre elements and steer angle. -/
def steer (g : Globals) (elements : Int) (tx : TransmitParams) (rx : ReceiveParams) :
    TransmitParams × ReceiveParams :=
  if g.phasedArray then
    ({ tx with centerElement := plusHalf (Int.tdiv elements 2)
               angle := phasedAngle g.scanline elements },
     { rx with centerElement := plusHalf (Int.tdiv elements 2)
               angle := phasedAngle g.scanline elements })
  else
    ({ tx with centerElement := plusHalf (wrap32 (Int.tdiv g.channels 2 + g.scanline))
               angle := COMPOUND_ANGLE },
     { rx with centerElement := plusHalf (wrap32 (Int.tdiv g.channels 2 + g.scanline))
               angle := COMPOUND_ANGLE })

/-- The receive parameters of line `i`: both mask words are overwritten. -/
def maskLine (channels : Int) (rx : ReceiveParams) (i : Int) : ReceiveParams :=
  let c := Int.tmod i channels
  { rx with channelMask0 := if c < 32 then shl32 1 c else 0
            channelMask1 := if c ≥ 32 then shl32 1 (c - 32) else 0 }

/-- The loop `for (i = 0; i < channels; i++)` of `createSequence`, entered
with `n = channels - i` iterations left; the body writes neither `i` nor
`channels`.  A refused line ends the loop with `false`. -/
def addLines (hw : Hardware) (tx : TransmitParams) :
    Nat → Int → ReceiveParams → Globals → Bool × Globals
  | 0, _, _, g => (true, g)
  | n + 1, i, rx, g =>
    let rx := maskLine g.channels rx i
    let g := g.log "channel #%d -> rx.channelMask[0] = %x\n" [.int i, .int rx.channelMask0]
    let g := g.log "channel #%d -> rx.channelMask[1] = %x\n" [.int i, .int rx.channelMask1]
    let added := hw.texoAddLine g.now
    let g := g.emit (.texoAddLine tx rx)
    if !added then (false, g)
    else addLines hw tx n (i + 1) rx g

/-- The part of `createSequence` between the range checks and the line loop:
the parameters of the scanline, with the calls made to compute and log
them. -/
def sequenceParams (hw : Hardware) (cfg : Config) (g : Globals) :
    (TransmitParams × ReceiveParams) × Globals :=
  let g := g.log
    "--------------------------------------------------------------------------------\n" []
  let g := g.log "Parameters of scanline #%d/%d\n"
    [.int g.scanline, .int (wrap32 (g.numOfScanlines - 1))]
  let g := g.log "\n" []
  let probeFreq := wrap32 (hw.texoGetProbeCenterFreq g.now)
  let frequency := if cfg.useCustomTxFrequency = 0 then probeFreq else cfg.txFrequency
  let g := if cfg.useCustomTxFrequency = 0 then g.emit .texoGetProbeCenterFreq else g
  let tx := txParams g cfg frequency
  let rx := rxParams g cfg
  let g := g.log "tx.aperture = %d\n" [.int tx.aperture]
  let g := g.log "tx.focusDistance = %d\n" [.int tx.focusDistance]
  let g := g.log "tx.frequency = %d\n" [.int tx.frequency]
  let g := g.log "tx.pulseShape = %s\n" [.str tx.pulseShape]
  let g := g.log "tx.useManualDelays = %d\n" [.int tx.useManualDelays]
  let g := g.log "rx.aperture = %d\n" [.int rx.aperture]
  let g := g.log "rx.acquisitionDepth = %d\n" [.int rx.acquisitionDepth]
  let g := g.log "rx.applyFocus = %d\n" [.int rx.applyFocus]
  let g := g.log "rx.decimation = %d\n" [.int rx.decimation]
  let g := g.log "rx.customLineDuration = %d\n" [.int rx.customLineDuration]
  let elements := wrap32 (hw.texoGetProbeNumElements g.now)
  let g := g.emit .texoGetProbeNumElements
  let txrx := steer g elements tx rx
  let g := g.log "rx.angle = %d\n" [.int txrx.2.angle]
  let g := g.log "tx.centerElement = %f\n" [.real txrx.1.centerElement]
  let g := g.log "rx.centerElement = %f\n" [.real txrx.2.centerElement]
  (txrx, g)

/-- The part of `createSequence` after the range checks. -/
def buildLines (hw : Hardware) (cfg : Config) (g : Globals) : Bool × Globals :=
  let p := sequenceParams hw cfg g
  addLines hw p.1.1 p.2.channels.toNat 0 p.1.2 p.2

/-- The function `createSequence(argv)`. -/
def createSequence (hw : Hardware) (argv : List String) (g : Globals) : Bool × Globals :=
  match hw.fopenRead g.now (argvAt argv 2) with
  | none => (false, g.emit (.fopen (argvAt argv 2) "r" false))
  | some text =>
    let g := g.emit (.fopen (argvAt argv 2) "r" true)
    let cfg := (fscanfConfig text.data).2
    let g := g.emit (.fclose (argvAt argv 2))
    match firstInvalid cfg with
    | some _ => (false, g)
    | none => buildLines hw cfg g

/-- The function `setup(argv)`.  The value returned by `createSequence` is
not looked at. -/
def setup (hw : Hardware) (argv : List String) (g : Globals) : Bool × Globals :=
  if !g.validprobe then (false, g)
  else
    let began := hw.texoBeginSequence g.now
    let g := g.emit .texoBeginSequence
    if !began then (false, g)
    else
      let g := (createSequence hw argv g).2
      let ended := wrap32 (hw.texoEndSequence g.now)
      let g := g.emit .texoEndSequence
      if ended = -1 then (false, g)
      else
        let g := printStats hw g
        (true, { g with validsequence := true })

/-! ## Data writer -/

/-- The name `sprintf` builds in `saveData`:
`"probeId_%d_%s_scanline_%s.raw"`. -/
def rawFileName (probeId : Int) (mode scanline_buf : String) : String :=
  "probeId_" ++ toString probeId ++ "_" ++ mode ++ "_scanline_" ++ scanline_buf ++ ".raw"

/-- The function `saveData(argv)`. -/
def saveData (hw : Hardware) (argv : List String) (g : Globals) : Bool × Globals :=
  let numFrames := wrap32 (hw.texoGetCollectedFrameCount g.now)
  let g := g.emit .texoGetCollectedFrameCount
  let frameSize := wrap32 (hw.texoGetFrameSize g.now)
  let g := g.emit .texoGetFrameSize
  if numFrames < 1 then (false, g)
  else
    let fileName := rawFileName g.probeId (argvAt argv 1) g.scanline_buf
    let opened := hw.fopenWrite g.now fileName
    let g := g.emit (.fopen fileName "wb+" opened)
    if !opened then (false, g)
    else
      let g := g.log "Frame size: %d\nAcquired frames: %d " [.int frameSize, .int numFrames]
      let numFrames := if numFrames > MAX_SAVED_FRAMES then MAX_SAVED_FRAMES else numFrames
      let g := g.log "Saved frames: %d\n\n" [.int numFrames]
      let g := g.emit (.texoGetCineStart 0)
      let g := g.emit (.fwrite fileName frameSize numFrames)
      let g := g.emit (.fclose fileName)
      (true, g)

/-! ## Orchestrator -/

/-- The four calls of one pass of the scanline loop of `main`. -/
inductive Step where
  | setup
  | run
  | stop
  | save
deriving DecidableEq, Repr

/-- One executed step: the call, the value of `scanline` at the call, and the
value the call returned. -/
structure StepRec where
  step : Step
  scanline : Int
  ok : Bool
deriving DecidableEq, Repr

/-- Result of the scanline loop, or of one pass: `completed` is `false` when
it was left through `goto goodbye`. -/
structure LoopOut where
  completed : Bool
  steps : List StepRec
  g : Globals

/-- The six clock fields printed with every time stamp. -/
def timeStamp : List Arg :=
  [.clock "wYear", .clock "wMonth", .clock "wDay", .clock "wHour", .clock "wMinute",
   .clock "wSecond"]

/-- One pass of the body of the loop `for (scanline = 0; ...)` in `main`. -/
def scanBody (hw : Hardware) (argv : List String) (g : Globals) : LoopOut :=
  let k := g.scanline
  let g := { g with scanline_buf := toString g.scanline }
  let r := setup hw argv g
  if !r.1 then ⟨false, [⟨.setup, k, false⟩], r.2⟩
  else
    let r := run hw r.2
    if !r.1 then ⟨false, [⟨.setup, k, true⟩, ⟨.run, k, false⟩], r.2⟩
    else
      let g := r.2.log "System running\n" []
      let r := stop hw g
      if !r.1 then ⟨false, [⟨.setup, k, true⟩, ⟨.run, k, true⟩, ⟨.stop, k, false⟩], r.2⟩
      else
        let g := r.2.log "Acquisition stopped\n" []
        let r := saveData hw argv g
        if !r.1 then
          ⟨false, [⟨.setup, k, true⟩, ⟨.run, k, true⟩, ⟨.stop, k, true⟩, ⟨.save, k, false⟩], r.2⟩
        else
          let g := r.2.log "Data of scanline #%d/%d saved\n"
            [.int r.2.scanline, .int (wrap32 (r.2.numOfScanlines - 1))]
          ⟨true, [⟨.setup, k, true⟩, ⟨.run, k, true⟩, ⟨.stop, k, true⟩, ⟨.save, k, true⟩], g⟩

/-- The loop `for (scanline = 0; scanline < numOfScanlines; scanline++)`,
entered with `n = numOfScanlines - scanline` passes left; the body writes
neither variable. -/
def scanLoop (hw : Hardware) (argv : List String) : Nat → Globals → LoopOut
  | 0, g => ⟨true, [], g⟩
  | n + 1, g =>
    let b := scanBody hw argv g
    if !b.completed then b
    else
      let rest := scanLoop hw argv n { b.g with scanline := wrap32 (b.g.scanline + 1) }
      ⟨rest.completed, b.steps ++ rest.steps, rest.g⟩

/-- Result of `main`: the value returned, the steps of the scanline loop that
were executed, and the final globals with the whole trace. -/
structure MainOut where
  status : Int
  steps : List StepRec
  g : Globals

/-- The code after the label `goodbye:`; the write to `fpLog` is made whether
or not `fpLog` is NULL. -/
def goodbye (steps : List StepRec) (g : Globals) : MainOut :=
  let g := g.emit .texoShutdown
  let g := g.emit .GetLocalTime
  let g := g.log "End of acquisition.\n\nDate and time: %d_%d_%d-%d_%d_%d\n\n" timeStamp
  let g := if g.fpLog then g.emit (.fclose g.logFileName) else g
  ⟨0, steps, g⟩

/-- The name `sprintf` builds for the log: `"probeId_%d_%s.log"`. -/
def logName (probeId : Int) (mode : String) : String :=
  "probeId_" ++ toString probeId ++ "_" ++ mode ++ ".log"

/-- The mode flags and `numOfScanlines` as set from `argv[1]`. -/
def selectMode (mode : String) (g : Globals) : Globals :=
  if mode = "phasedArray" then
    { g with phasedArray := true, singleTx := false, singleRx := false, planeWave := false,
             flashlight := false, numOfScanlines := 64 }
  else if mode = "singleRx" then
    { g with singleRx := true, singleTx := false, phasedArray := false, planeWave := false,
             flashlight := false, numOfScanlines := 65 }
  else g

/-- The part of `main` before the scanline loop, started from the initial
globals; `argc` is the length of `argv`.  The result is `error out` when
`main` ends before the loop, with `out` what it returns then (through
`return -1`, or through `goodbye` after a failed probe selection or a log
file that cannot be created), and `ok g` when the loop is entered with the
globals `g`. -/
def startup (hw : Hardware) (argv : List String) : Except MainOut Globals :=
  let g : Globals := {}
  if argv.length ≠ 3 then .error ⟨-1, [], g⟩
  else if argvAt argv 1 ≠ "phasedArray" ∧ argvAt argv 1 ≠ "singleRx" then .error ⟨-1, [], g⟩
  else
    let g := g.emit .GetLocalTime
    let g := { g with channels := 64 }
    let inited := hw.texoInit g.now
    let g := g.emit (.texoInit 3 4 g.channels)
    if !inited then .error ⟨-1, [], g⟩
    else
      let g := g.emit .texoSetCallback
      let g := g.emit .texoClearTGCs
      let g := g.emit .texoAddTGCFixed
      let g := g.emit (.texoSetPower g.power)
      let g := { g with connector := 0 }
      let r := selectProbe hw g.connector g
      if !r.1 then .error (goodbye [] r.2)
      else
        let g := r.2
        let probeName := hw.texoGetProbeName g.now
        let g := g.emit (.texoGetProbeName g.connector)
        let g := { g with logFileName := logName g.probeId (argvAt argv 1) }
        let opened := hw.fopenWrite g.now g.logFileName
        let g := g.emit (.fopen g.logFileName "w" opened)
        let g := { g with fpLog := opened }
        if !opened then .error (goodbye [] g)
        else
          let g := g.log "Date and time: %d_%d_%d-%d_%d_%d\n\n" timeStamp
          let g := g.log "Probe ID: %d\nProbe name: %s\n\n" [.int g.probeId, .str probeName]
          let g := g.log "Acquisition configuration: %s\n\n" [.str (argvAt argv 1)]
          let g := g.emit (.fflush g.fpLog)
          let g := { g with scanline := 0 }
          .ok (selectMode (argvAt argv 1) g)

/-- The function `main(argc, argv)`: the start-up, the scanline loop, and the
code after `goodbye:`. -/
def main (hw : Hardware) (argv : List String) : MainOut :=
  match startup hw argv with
  | .error out => out
  | .ok g =>
    let out := scanLoop hw argv g.numOfScanlines.toNat g
    goodbye out.steps out.g

/-! ## Reading a trace -/

/-- The line a call submits, when the call is `texoAddLine`. -/
def Event.asLine : Event → Option (TransmitParams × ReceiveParams)
  | .texoAddLine tx rx => some (tx, rx)
  | _ => none

/-- The lines submitted in a stretch of the trace, in order. -/
def submittedLines (tr : List Event) : List (TransmitParams × ReceiveParams) :=
  tr.filterMap Event.asLine

/-- The calls a function made: the part of its trace after the trace it was
entered with. -/
def callsSince (g : Globals) (after : Globals) : List Event :=
  after.trace.drop g.trace.length

/-- The 64-bit value of the two mask words, each word read modulo `2^32`. -/
def maskValue (rx : ReceiveParams) : Int :=
  rx.channelMask0 % 4294967296 + 4294967296 * (rx.channelMask1 % 4294967296)

/-- The parameters every line of a scanline starts from. -/
def lineParams (hw : Hardware) (g : Globals) (cfg : Config) (freq : Int) (t : Nat) :
    TransmitParams × ReceiveParams :=
  steer g (wrap32 (hw.texoGetProbeNumElements t)) (txParams g cfg freq) (rxParams g cfg)

/-! ## Concrete sessions -/

/-- A session in which every call succeeds: a 64-element probe, twenty
collected frames of 4096 bytes, and the configuration `50 0 0 flat 60 1`. -/
def nominalHardware : Hardware :=
  { texoInit := fun _ => true
    texoGetProbeCode := fun _ => 11
    texoSelectProbe := fun _ => true
    texoActivateProbeConnector := fun _ => true
    texoGetProbeName := fun _ => "SA4-2/24"
    texoGetProbeCenterFreq := fun _ => 3000000
    texoGetProbeNumElements := fun _ => 64
    texoBeginSequence := fun _ => true
    texoAddLine := fun _ => true
    texoEndSequence := fun _ => 64
    texoGetFrameSize := fun _ => 4096
    texoGetFrameRate := fun _ => ⟨30, 1⟩
    texoGetMaxFrameCount := fun _ => 100
    texoRunImage := fun _ => true
    texoStopImage := fun _ => true
    texoGetCollectedFrameCount := fun _ => 20
    fopenRead := fun _ _ => some "50 0 0 flat 60 1"
    fopenWrite := fun _ _ => true }

/-- A configuration file whose focus distance, 5 mm, is below the range. -/
def shortFocusHardware : Hardware :=
  { nominalHardware with fopenRead := fun _ _ => some "5 0 0 flat 60 1" }

/-- Globals as `main` leaves them before the first scanline of a `singleRx`
session: probe selected, log open. -/
def readyGlobals : Globals :=
  { validprobe := true, fpLog := true, singleRx := true, numOfScanlines := 65, scanline_buf := "0",
    logFileName := "probeId_11_singleRx.log" }

/-- Globals of a session that is acquiring: sequence valid, running. -/
def acquiringGlobals : Globals :=
  { readyGlobals with validsequence := true, running := true }

/-- Globals of a session whose sequence is built and not yet started. -/
def sequenceReadyGlobals : Globals :=
  { readyGlobals with validsequence := true }

/-- A session with no probe on the connector: `texoSelectProbe` fails. -/
def noProbeHardware : Hardware :=
  { nominalHardware with texoSelectProbe := fun _ => false }

/-- A session in which `texoBeginSequence` is refused. -/
def beginRefusedHardware : Hardware :=
  { nominalHardware with texoBeginSequence := fun _ => false }

/-- A session in which `texoInit` fails. -/
def initFailsHardware : Hardware :=
  { nominalHardware with texoInit := fun _ => false }

/-- A configuration file with five fields: the decimation is missing. -/
def fiveFieldHardware : Hardware :=
  { nominalHardware with fopenRead := fun _ _ => some "50 0 0 flat 60" }

/-- A configuration file that stops after the pulse shape. -/
def fourFieldHardware : Hardware :=
  { nominalHardware with fopenRead := fun _ _ => some "50 0 0 flat" }

/-! ## Schedule of the scanline loop and save marks -/

/-- The variables the scanline loop depends on that no step writes. -/
def Globals.loopVars (g : Globals) : Int × Int × Int × Bool × String :=
  (g.scanline, g.numOfScanlines, g.probeId, g.fpLog, g.scanline_buf)

/-- The calls that mark a save: the creation of a raw file and the log entry
`Data of scanline #k/total saved`. -/
def isSaveMark : Event → Bool
  | .fopen _ mode _ => mode == "wb+"
  | .fprintf _ fmt _ => fmt == "Data of scanline #%d/%d saved\n"
  | _ => false

/-- The save marks of a trace, in order. -/
def saveMarks (tr : List Event) : List Event := tr.filter isSaveMark

/-- The key of an executed step: the call and the scanline it was made for. -/
def StepRec.key (r : StepRec) : Step × Int := (r.step, r.scanline)

/-- The four steps of scanline `k`, in the order of the loop body. -/
def stepsOf (k : Int) : List (Step × Int) :=
  [(.setup, k), (.run, k), (.stop, k), (.save, k)]

/-- The schedule of `n` scanlines starting at scanline `s`:
`setup(s), run(s), stop(s), save(s), setup(s+1), ...`. -/
def scheduleFrom (s : Int) : Nat → List (Step × Int)
  | 0 => []
  | n + 1 => stepsOf s ++ scheduleFrom (s + 1) n

/-- The schedule `setup(0), run(0), stop(0), save(0), ..., save(n-1)`. -/
def schedule (n : Nat) : List (Step × Int) := scheduleFrom 0 n

/-- The two save marks of scanline `k`: the raw file created under the name
with suffix `k`, then the log entry `Data of scanline #k/total saved`. -/
def marksOf (probeId : Int) (mode : String) (fpLog : Bool) (total k : Int) : List Event :=
  [.fopen (rawFileName probeId mode (toString k)) "wb+" true,
   .fprintf fpLog "Data of scanline #%d/%d saved\n" [.int k, .int total]]

/-- The save marks of `n` scanlines saved in order from scanline `s`. -/
def marksFrom (probeId : Int) (mode : String) (fpLog : Bool) (total : Int) (s : Int) :
    Nat → List Event
  | 0 => []
  | n + 1 => marksOf probeId mode fpLog total s ++ marksFrom probeId mode fpLog total (s + 1) n

/-- The variables of the session that no pass of the loop body writes. -/
def Globals.sessionVars (g : Globals) : Int × Int × Int × Bool :=
  (g.scanline, g.numOfScanlines, g.probeId, g.fpLog)

/-- The name of the file a call creates or opens, when the call is `fopen`. -/
def Event.fopenName : Event → Option String
  | .fopen name _ _ => some name
  | _ => none

/-- The scanline suffixes `s, s+1, ...` of `n` raw files, as `sprintf` with
`%d` writes them into `scanline_buf`. -/
def suffixesFrom (s : Int) : Nat → List String
  | 0 => []
  | n + 1 => toString s :: suffixesFrom (s + 1) n

/-- The globals with which the nominal `singleRx` session enters the loop. -/
def nominalStart : Globals :=
  match startup nominalHardware ["texo", "singleRx", "config.txt"] with
  | .ok g => g
  | .error out => out.g

/-- A session in which the log file cannot be created: every `fopen` for
writing fails. -/
def logRefusedHardware : Hardware :=
  { nominalHardware with fopenWrite := fun _ _ => false }

/-- A session in which the probe is selected but its connector cannot be
activated, so that `selectProbe` fails. -/
def activationRefusedHardware : Hardware :=
  { nominalHardware with texoActivateProbeConnector := fun _ => false }

/-! ## Lines submitted by `createSequence` -/

theorem maskLine_maskLine (ch : Int) (rx : ReceiveParams) (i j : Int) :
    maskLine ch (maskLine ch rx i) j = maskLine ch rx j := by
  simp [maskLine]

theorem callsSince_append (g g2 : Globals) (X : List Event) (h : g2.trace = g.trace ++ X) :
    callsSince g g2 = X := by
  simp [callsSince, h]

/-- The loop submits a prefix of the lines `i, i+1, ...`: all `n` of them when
it returns `true`, which it does when no line is refused. -/
theorem addLines_spec (hw : Hardware) (tx : TransmitParams) :
    ∀ (n : Nat) (i : Int) (rx : ReceiveParams) (g : Globals),
      ∃ (m : Nat) (X : List Event), m ≤ n ∧
        (addLines hw tx n i rx g).2.trace = g.trace ++ X ∧
        submittedLines X = (List.range m).map (fun (j : Nat) => (tx, maskLine g.channels rx (i + (j : Int)))) ∧
        ((addLines hw tx n i rx g).1 = true → m = n) ∧
        ((∀ t, hw.texoAddLine t = true) → (addLines hw tx n i rx g).1 = true) := by
  intro n
  induction n with
  | zero =>
    intro i rx g
    exact ⟨0, [], le_refl 0, by simp [addLines], by simp [submittedLines], fun _ => rfl,
      fun _ => rfl⟩
  | succ n ih =>
    intro i rx g
    by_cases hadd : hw.texoAddLine (g.trace.length + 1 + 1) = true
    · obtain ⟨m, X, hm, htr, hlines, hret, hall⟩ := ih (i + 1) (maskLine g.channels rx i)
        (((g.log "channel #%d -> rx.channelMask[0] = %x\n"
            [.int i, .int (maskLine g.channels rx i).channelMask0]).log
            "channel #%d -> rx.channelMask[1] = %x\n"
            [.int i, .int (maskLine g.channels rx i).channelMask1]).emit
          (.texoAddLine tx (maskLine g.channels rx i)))
      refine ⟨m + 1,
        .fprintf g.fpLog "channel #%d -> rx.channelMask[0] = %x\n"
            [.int i, .int (maskLine g.channels rx i).channelMask0] ::
          .fprintf g.fpLog "channel #%d -> rx.channelMask[1] = %x\n"
            [.int i, .int (maskLine g.channels rx i).channelMask1] ::
          .texoAddLine tx (maskLine g.channels rx i) :: X, by omega, ?_, ?_, ?_, ?_⟩
      · simp only [addLines, Globals.now, Globals.log, Globals.emit, List.length_append,
          List.length_singleton, hadd] at htr ⊢
        simp only [Bool.not_true, Bool.false_eq_true, if_false]
        rw [htr]
        simp
      · simp only [submittedLines, List.filterMap_cons, Event.asLine] at hlines ⊢
        simp only [Globals.log, Globals.emit] at hlines
        rw [hlines, List.range_succ_eq_map]
        simp only [List.map_cons, List.map_map, maskLine_maskLine, Nat.cast_zero, add_zero]
        refine congrArg _ (List.map_congr_left ?_)
        intro a _
        simp only [Function.comp, Nat.succ_eq_add_one, Nat.cast_add, Nat.cast_one]
        rw [show i + 1 + (a : Int) = i + ((a : Int) + 1) by ring]
      · intro h
        simp only [addLines, Globals.now, Globals.log, Globals.emit, List.length_append,
          List.length_singleton, hadd, Bool.not_true, Bool.false_eq_true, if_false] at h hret
        rw [hret h]
      · intro h
        simp only [addLines, Globals.now, Globals.log, Globals.emit, List.length_append,
          List.length_singleton, hadd, Bool.not_true, Bool.false_eq_true, if_false] at hall ⊢
        exact hall h
    · refine ⟨1,
        [.fprintf g.fpLog "channel #%d -> rx.channelMask[0] = %x\n"
            [.int i, .int (maskLine g.channels rx i).channelMask0],
          .fprintf g.fpLog "channel #%d -> rx.channelMask[1] = %x\n"
            [.int i, .int (maskLine g.channels rx i).channelMask1],
          .texoAddLine tx (maskLine g.channels rx i)], by omega, ?_, ?_, ?_, ?_⟩
      · simp [addLines, Globals.now, Globals.log, Globals.emit, hadd]
      · simp [submittedLines, Event.asLine, List.range_succ]
      · intro h
        simp [addLines, Globals.now, Globals.log, Globals.emit, hadd] at h
      · intro h
        exact absurd (h _) hadd

theorem addLines_vars (hw : Hardware) (tx : TransmitParams) :
    ∀ (n : Nat) (i : Int) (rx : ReceiveParams) (g : Globals),
      (addLines hw tx n i rx g).2 = { g with trace := (addLines hw tx n i rx g).2.trace } := by
  intro n
  induction n with
  | zero => intro i rx g; rfl
  | succ n ih =>
    intro i rx g
    simp only [addLines]
    split
    · rfl
    · rw [ih]
      simp [Globals.log, Globals.emit]

theorem sequenceParams_trace (hw : Hardware) (cfg : Config) (g : Globals) :
    ∃ X : List Event,
      (sequenceParams hw cfg g).2 = { g with trace := g.trace ++ X } ∧
      submittedLines X = [] := by
  refine ⟨(sequenceParams hw cfg g).2.trace.drop g.trace.length, ?_, ?_⟩
  · by_cases hc : cfg.useCustomTxFrequency = 0 <;>
      simp [sequenceParams, Globals.log, Globals.emit, hc]
  · by_cases hc : cfg.useCustomTxFrequency = 0 <;>
      simp [sequenceParams, Globals.log, Globals.emit, hc, submittedLines, Event.asLine]

theorem sequenceParams_params (hw : Hardware) (cfg : Config) (g : Globals) :
    ∃ (freq : Int) (t : Nat),
      (sequenceParams hw cfg g).1 =
        steer g (wrap32 (hw.texoGetProbeNumElements t)) (txParams g cfg freq) (rxParams g cfg) := by
  by_cases hc : cfg.useCustomTxFrequency = 0
  · refine ⟨wrap32 (hw.texoGetProbeCenterFreq (g.trace.length + 3)), g.trace.length + 14, ?_⟩
    simp [sequenceParams, Globals.log, Globals.emit, Globals.now, hc, steer, txParams, rxParams]
  · refine ⟨cfg.txFrequency, g.trace.length + 13, ?_⟩
    simp [sequenceParams, Globals.log, Globals.emit, Globals.now, hc, steer, txParams, rxParams]

theorem buildLines_spec (hw : Hardware) (cfg : Config) (g : Globals) :
    ∃ (m : Nat) (X : List Event) (freq : Int) (t : Nat), m ≤ g.channels.toNat ∧
      (buildLines hw cfg g).2 = { g with trace := g.trace ++ X } ∧
      submittedLines X = (List.range m).map (fun (j : Nat) =>
        ((lineParams hw g cfg freq t).1,
          maskLine g.channels (lineParams hw g cfg freq t).2 (j : Int))) ∧
      ((buildLines hw cfg g).1 = true → m = g.channels.toNat) ∧
      ((∀ t, hw.texoAddLine t = true) → (buildLines hw cfg g).1 = true) := by
  obtain ⟨X0, hX0, hl0⟩ := sequenceParams_trace hw cfg g
  obtain ⟨freq, t, hp⟩ := sequenceParams_params hw cfg g
  obtain ⟨m, X, hm, htr, hlines, hret, hall⟩ :=
    addLines_spec hw (sequenceParams hw cfg g).1.1 (sequenceParams hw cfg g).2.channels.toNat 0
      (sequenceParams hw cfg g).1.2 (sequenceParams hw cfg g).2
  have hch : (sequenceParams hw cfg g).2.channels = g.channels := by rw [hX0]
  rw [hch] at hm hret hall hlines htr
  refine ⟨m, X0 ++ X, freq, t, hm, ?_, ?_, ?_, ?_⟩
  · simp only [buildLines, hch]
    rw [addLines_vars, htr, hX0]
    simp
  · simp only [submittedLines, List.filterMap_append] at hl0 hlines ⊢
    rw [hl0, hlines, lineParams, ← hp]
    simp
  · intro h
    exact hret (by simpa only [buildLines, hch] using h)
  · intro h
    simpa only [buildLines, hch] using hall h

theorem createSequence_spec (hw : Hardware) (argv : List String) (g : Globals) :
    ∃ (m : Nat) (X : List Event) (cfg : Config) (freq : Int) (t : Nat), m ≤ g.channels.toNat ∧
      (createSequence hw argv g).2 = { g with trace := g.trace ++ X } ∧
      submittedLines X = (List.range m).map (fun (j : Nat) =>
        ((lineParams hw g cfg freq t).1,
          maskLine g.channels (lineParams hw g cfg freq t).2 (j : Int))) ∧
      ((createSequence hw argv g).1 = true → m = g.channels.toNat) ∧
      (∀ text, hw.fopenRead g.now (argvAt argv 2) = some text →
        firstInvalid (fscanfConfig text.data).2 = none →
        (∀ t, hw.texoAddLine t = true) → (createSequence hw argv g).1 = true) := by
  cases hopen : hw.fopenRead g.now (argvAt argv 2) with
  | none =>
    refine ⟨0, [.fopen (argvAt argv 2) "r" false], {}, 0, 0, Nat.zero_le _, ?_, ?_, ?_, ?_⟩
    · simp [createSequence, hopen, Globals.emit]
    · simp [submittedLines, Event.asLine]
    · simp [createSequence, hopen]
    · intro text h; cases h
  | some text =>
    cases hval : firstInvalid (fscanfConfig text.data).2 with
    | some k =>
      refine ⟨0, [.fopen (argvAt argv 2) "r" true, .fclose (argvAt argv 2)], {}, 0, 0,
        Nat.zero_le _, ?_, ?_, ?_, ?_⟩
      · simp [createSequence, hopen, hval, Globals.emit]
      · simp [submittedLines, Event.asLine]
      · simp [createSequence, hopen, hval]
      · intro text2 h hv
        cases h
        rw [hval] at hv
        cases hv
    | none =>
      obtain ⟨m, X, freq, t, hm, htr, hlines, hret, hall⟩ :=
        buildLines_spec hw (fscanfConfig text.data).2
          ((g.emit (.fopen (argvAt argv 2) "r" true)).emit (.fclose (argvAt argv 2)))
      refine ⟨m, .fopen (argvAt argv 2) "r" true :: .fclose (argvAt argv 2) :: X,
        (fscanfConfig text.data).2, freq, t, hm, ?_, ?_, ?_, ?_⟩
      · simp only [createSequence, hopen, hval]
        rw [htr]
        simp [Globals.emit]
      · simp only [submittedLines, List.filterMap_cons, Event.asLine] at hlines ⊢
        rw [hlines]
        rfl
      · intro h
        exact hret (by simpa only [createSequence, hopen, hval] using h)
      · intro text2 h _ hadd
        simpa only [createSequence, hopen, hval] using hall hadd

theorem maskLine_words (rx : ReceiveParams) (i : Nat) (hi : i < 64) :
    (maskLine 64 rx (i : Int)).channelMask0 % 4294967296 = (if i < 32 then 2 ^ i else 0) ∧
    (maskLine 64 rx (i : Int)).channelMask1 % 4294967296 = (if 32 ≤ i then 2 ^ (i - 32) else 0) := by
  simp only [maskLine]
  interval_cases i <;> decide

/-- C1: with `channels = 64`, the `i`-th line `createSequence` submits has
the mask value `channelMask[0] + 2^32 * channelMask[1]` (words read modulo
`2^32`) equal to `2^i`, the single bit sitting in word 0 for `i < 32` and in
word 1 for `i ≥ 32`; no more than 64 lines are submitted, and when the
configuration loads and validates and no line is refused the build succeeds
and submits exactly 64 lines, which by the first part are the lines
`i = 0..63` in that order. -/
theorem createSequence_channel_isolation (hw : Hardware) (argv : List String) (g : Globals)
    (hch : g.channels = 64) :
    (∀ (i : Nat) (line : TransmitParams × ReceiveParams),
        (submittedLines (callsSince g (createSequence hw argv g).2))[i]? = some line →
        i < 64 ∧ maskValue line.2 = 2 ^ i ∧
        (∀ b : Nat, (maskValue line.2).toNat.testBit b = decide (b = i)) ∧
        (i < 32 → line.2.channelMask0 % 4294967296 = 2 ^ i ∧
          line.2.channelMask1 % 4294967296 = 0) ∧
        (32 ≤ i → line.2.channelMask0 % 4294967296 = 0 ∧
          line.2.channelMask1 % 4294967296 = 2 ^ (i - 32))) ∧
    (∀ text, hw.fopenRead g.now (argvAt argv 2) = some text →
        firstInvalid (fscanfConfig text.data).2 = none → (∀ t, hw.texoAddLine t = true) →
        (createSequence hw argv g).1 = true ∧
        (submittedLines (callsSince g (createSequence hw argv g).2)).length = 64) := by
  obtain ⟨m, X, cfg, freq, t, hm, htr, hlines, hret, hall⟩ := createSequence_spec hw argv g
  have hcs : callsSince g (createSequence hw argv g).2 = X :=
    callsSince_append g _ X (by rw [htr])
  rw [hcs, hlines, hch]
  rw [hch] at hm hret
  have hm64 : m ≤ 64 := by simpa using hm
  constructor
  · intro i line hline
    rw [List.getElem?_map] at hline
    have hi : i < m := by
      by_contra hcon
      rw [List.getElem?_eq_none (by simpa using Nat.le_of_not_lt hcon)] at hline
      simp at hline
    rw [List.getElem?_range hi] at hline
    simp only [Option.map_some', Option.some.injEq] at hline
    subst hline
    have hi64 : i < 64 := lt_of_lt_of_le hi hm64
    obtain ⟨h0, h1⟩ := maskLine_words (lineParams hw g cfg freq t).2 i hi64
    have hval : maskValue (maskLine 64 (lineParams hw g cfg freq t).2 (i : Int)) = 2 ^ i := by
      simp only [maskValue]
      rw [h0, h1]
      clear h0 h1 hi
      interval_cases i <;> decide
    refine ⟨hi64, hval, ?_, ?_, ?_⟩
    · intro b
      rw [hval]
      have : ((2 : Int) ^ i).toNat = 2 ^ i := by
        rw [show ((2 : Int) ^ i) = ((2 ^ i : Nat) : Int) by push_cast; rfl]
        exact Int.toNat_natCast _
      rw [this, Nat.testBit_two_pow]
      by_cases hb : b = i
      · simp [hb]
      · simp [hb, Ne.symm hb]
    · intro h32
      rw [h0, h1]
      simp [h32, Nat.not_le.mpr h32]
    · intro h32
      rw [h0, h1]
      simp [h32, Nat.not_lt.mpr h32]
  · intro text hopen hval hadd
    have hret1 := hall text hopen hval hadd
    refine ⟨hret1, ?_⟩
    have := hret hret1
    simp at this
    simp [this]

/-- An instance: from the initial globals, with the nominal hardware, the
build succeeds and submits 64 lines. -/
theorem createSequence_channel_isolation_witness :
    ({} : Globals).channels = 64 ∧
    (createSequence nominalHardware ["texo", "singleRx", "config.txt"] {}).1 = true ∧
    (submittedLines (callsSince {}
      (createSequence nominalHardware ["texo", "singleRx", "config.txt"] {}).2)).length = 64 :=
  ⟨rfl, (createSequence_channel_isolation nominalHardware ["texo", "singleRx", "config.txt"] {}
    rfl).2 "50 0 0 flat 60 1" rfl (by decide) (fun _ => rfl)⟩

/-! ## Phased-array steer angle -/

theorem wrap32_of_range (x : Int) (h0 : -2147483648 ≤ x) (h1 : x ≤ 2147483647) :
    wrap32 x = x := by
  unfold wrap32
  omega

theorem scaled_quotient_bounds (s e : Int) (h2 : 2 ≤ e) (hs0 : 0 ≤ s) (hs1 : s ≤ e - 1) :
    0 ≤ (90000 * s) / (e - 1) ∧ (90000 * s) / (e - 1) ≤ 90000 := by
  have hpos : 0 < e - 1 := by omega
  constructor
  · exact Int.ediv_nonneg (by omega) (by omega)
  · apply Int.ediv_le_of_le_mul hpos
    nlinarith

theorem phasedAngle_eq (s e : Int) (h2 : 2 ≤ e) (hint : e ≤ 2147483647) (hs0 : 0 ≤ s)
    (hs1 : s ≤ e - 1) (hfit : 90000 * s ≤ 2147483647) :
    phasedAngle s e = -45000 + (90000 * s) / (e - 1) := by
  obtain ⟨hq0, hq1⟩ := scaled_quotient_bounds s e h2 hs0 hs1
  unfold phasedAngle
  rw [show (45000 - -45000 : Int) = 90000 by norm_num,
    wrap32_of_range (90000 * s) (by omega) hfit, wrap32_of_range (e - 1) (by omega) (by omega),
    Int.tdiv_eq_ediv (by omega) (by omega), wrap32_of_range _ (by omega) (by omega)]

/-- C2: in phased-array mode, for a probe of `elements ≥ 2` elements and a
scanline `0 ≤ s ≤ elements - 1` whose product `90000 * s` fits a C `int` (so
for every scanline index `main` uses), the angle `createSequence` assigns to
`tx.angle` and `rx.angle`, and carries on every line it submits, is
`-45000 + (90000 * s) / (elements - 1)` with truncating division; it lies in
`[-45000, 45000]`, does not decrease with `s`, is `-45000` at `s = 0` and
`45000` at `s = elements - 1`. -/
theorem createSequence_phased_angle (hw : Hardware) (argv : List String) (g : Globals)
    (elements : Int) (hmode : g.phasedArray = true)
    (hprobe : ∀ t, hw.texoGetProbeNumElements t = elements)
    (h2 : 2 ≤ elements) (hint : elements ≤ 2147483647)
    (hs0 : 0 ≤ g.scanline) (hs1 : g.scanline ≤ elements - 1)
    (hfit : 90000 * g.scanline ≤ 2147483647) :
    (∀ tx rx, (steer g elements tx rx).1.angle =
          -45000 + Int.tdiv (90000 * g.scanline) (elements - 1) ∧
        (steer g elements tx rx).2.angle =
          -45000 + Int.tdiv (90000 * g.scanline) (elements - 1)) ∧
    (∀ line ∈ submittedLines (callsSince g (createSequence hw argv g).2),
        line.1.angle = -45000 + Int.tdiv (90000 * g.scanline) (elements - 1) ∧
        line.2.angle = -45000 + Int.tdiv (90000 * g.scanline) (elements - 1)) ∧
    (-45000 ≤ phasedAngle g.scanline elements ∧ phasedAngle g.scanline elements ≤ 45000) ∧
    (∀ s : Int, g.scanline ≤ s → s ≤ elements - 1 → 90000 * s ≤ 2147483647 →
        phasedAngle g.scanline elements ≤ phasedAngle s elements) ∧
    phasedAngle 0 elements = -45000 ∧
    (g.scanline = elements - 1 → phasedAngle g.scanline elements = 45000) := by
  have hpos : 0 < elements - 1 := by omega
  have hform := phasedAngle_eq g.scanline elements h2 hint hs0 hs1 hfit
  have htdiv : Int.tdiv (90000 * g.scanline) (elements - 1) =
      (90000 * g.scanline) / (elements - 1) := Int.tdiv_eq_ediv (by omega) (by omega)
  obtain ⟨hq0, hq1⟩ := scaled_quotient_bounds g.scanline elements h2 hs0 hs1
  have hsteer : ∀ tx rx, (steer g elements tx rx).1.angle =
        -45000 + Int.tdiv (90000 * g.scanline) (elements - 1) ∧
      (steer g elements tx rx).2.angle =
        -45000 + Int.tdiv (90000 * g.scanline) (elements - 1) := by
    intro tx rx
    simp only [steer, hmode, if_true]
    rw [hform, htdiv]
    exact ⟨rfl, rfl⟩
  refine ⟨hsteer, ?_, ?_, ?_, ?_, ?_⟩
  · obtain ⟨m, X, cfg, freq, t, _, htr, hlines, _, _⟩ := createSequence_spec hw argv g
    have hcs : callsSince g (createSequence hw argv g).2 = X :=
      callsSince_append g _ X (by rw [htr])
    intro line hline
    rw [hcs, hlines] at hline
    obtain ⟨j, _, hj⟩ := List.mem_map.mp hline
    have hw32 : wrap32 (hw.texoGetProbeNumElements t) = elements := by
      rw [hprobe t]
      exact wrap32_of_range elements (by omega) hint
    subst hj
    simp only [lineParams, hw32, maskLine]
    exact hsteer _ _
  · rw [hform]
    omega
  · intro s hle hs hsfit
    rw [hform, phasedAngle_eq s elements h2 hint (by omega) hs hsfit]
    have : (90000 * g.scanline) / (elements - 1) ≤ (90000 * s) / (elements - 1) :=
      Int.ediv_le_ediv hpos (by omega)
    omega
  · rw [phasedAngle_eq 0 elements h2 hint (le_refl 0) (by omega) (by norm_num)]
    simp
  · intro hlast
    rw [hform, hlast, Int.mul_ediv_cancel _ (by omega)]
    norm_num

/-- An instance: a 64-element probe at scanline 63, the last one of the
phased-array mode, is steered to `45000`. -/
theorem createSequence_phased_angle_witness :
    (∀ line ∈ submittedLines (callsSince { phasedArray := true, scanline := 63 }
        (createSequence nominalHardware ["texo", "phasedArray", "config.txt"]
          { phasedArray := true, scanline := 63 }).2),
      line.1.angle = -45000 + Int.tdiv (90000 * 63) (64 - 1) ∧
      line.2.angle = -45000 + Int.tdiv (90000 * 63) (64 - 1)) ∧
    phasedAngle 63 64 = 45000 :=
  have h := createSequence_phased_angle nominalHardware ["texo", "phasedArray", "config.txt"]
    { phasedArray := true, scanline := 63 } 64 rfl (fun _ => rfl) (by decide) (by decide)
    (by decide) (by decide) (by decide)
  ⟨h.2.1, h.2.2.2.2.2 rfl⟩

/-! ## Range checks -/

theorem firstInvalid_isSome (cfg : Config)
    (h : cfg.txFocusDistance < 10 ∨ cfg.txFocusDistance > 300 ∨
      cfg.rxAcquisitionDepth < 10 ∨ cfg.rxAcquisitionDepth > 300 ∨
      cfg.rxDecimation < 0 ∨ cfg.rxDecimation > 2) :
    ∃ k, firstInvalid cfg = some k := by
  unfold firstInvalid
  split_ifs with h1 h2 h3
  · exact ⟨1, rfl⟩
  · exact ⟨2, rfl⟩
  · exact ⟨3, rfl⟩
  · omega

theorem createSequence_invalid (hw : Hardware) (argv : List String) (g : Globals)
    (text : String) (k : Nat) (hopen : hw.fopenRead g.now (argvAt argv 2) = some text)
    (hbad : firstInvalid (fscanfConfig text.data).2 = some k) :
    createSequence hw argv g =
      (false, { g with trace := g.trace ++
        [.fopen (argvAt argv 2) "r" true, .fclose (argvAt argv 2)] }) := by
  simp [createSequence, hopen, hbad, Globals.emit]

theorem setup_eq (hw : Hardware) (argv : List String) (g : Globals)
    (hprobe : g.validprobe = true) (hbegin : hw.texoBeginSequence g.now = true) :
    setup hw argv g =
      if wrap32 (hw.texoEndSequence
          (createSequence hw argv (g.emit .texoBeginSequence)).2.now) = -1 then
        (false, (createSequence hw argv (g.emit .texoBeginSequence)).2.emit .texoEndSequence)
      else
        (true, { printStats hw
          ((createSequence hw argv (g.emit .texoBeginSequence)).2.emit .texoEndSequence) with
          validsequence := true }) := by
  simp only [setup, hprobe, hbegin, Bool.not_true, Bool.false_eq_true, if_false]

/-- C3, as stated, fails: with the focus distance 5 in the configuration
file, `setup` returns `true` and sets `validsequence`, after calling both
`texoBeginSequence` and `texoEndSequence`, and the pass of the scanline loop
goes on through run, stop and save. -/
theorem setup_accepts_invalid_config :
    (fscanfConfig "5 0 0 flat 60 1".data).2.txFocusDistance = 5 ∧
    (setup shortFocusHardware ["texo", "singleRx", "config.txt"] readyGlobals).1 = true ∧
    (setup shortFocusHardware ["texo", "singleRx", "config.txt"] readyGlobals).2.validsequence
      = true ∧
    Event.texoBeginSequence ∈ callsSince readyGlobals
      (setup shortFocusHardware ["texo", "singleRx", "config.txt"] readyGlobals).2 ∧
    Event.texoEndSequence ∈ callsSince readyGlobals
      (setup shortFocusHardware ["texo", "singleRx", "config.txt"] readyGlobals).2 ∧
    (scanBody shortFocusHardware ["texo", "singleRx", "config.txt"] readyGlobals).steps =
      [⟨.setup, 0, true⟩, ⟨.run, 0, true⟩, ⟨.stop, 0, true⟩, ⟨.save, 0, true⟩] := by
  decide

/-- C3, amended: when the configuration read from the file has a focus
distance or an acquisition depth outside `[10, 300]` or a decimation outside
`{0, 1, 2}`, `createSequence` returns `false` and its only calls are the
opening and closing of the configuration file: no call to the hardware, no
line submitted, no global changed.  `setup` has by then issued
`texoBeginSequence`, its first call, and no line is submitted in the whole
of `setup`. -/
theorem createSequence_rejects_out_of_range (hw : Hardware) (argv : List String) (g : Globals)
    (text : String)
    (hbad : (fscanfConfig text.data).2.txFocusDistance < 10 ∨
      (fscanfConfig text.data).2.txFocusDistance > 300 ∨
      (fscanfConfig text.data).2.rxAcquisitionDepth < 10 ∨
      (fscanfConfig text.data).2.rxAcquisitionDepth > 300 ∨
      (fscanfConfig text.data).2.rxDecimation < 0 ∨
      (fscanfConfig text.data).2.rxDecimation > 2) :
    (hw.fopenRead g.now (argvAt argv 2) = some text →
      (createSequence hw argv g).1 = false ∧
      (createSequence hw argv g).2 = { g with trace := g.trace ++
        [.fopen (argvAt argv 2) "r" true, .fclose (argvAt argv 2)] }) ∧
    (g.validprobe = true → hw.texoBeginSequence g.now = true →
      hw.fopenRead (g.now + 1) (argvAt argv 2) = some text →
      (callsSince g (setup hw argv g).2).take 3 =
        [.texoBeginSequence, .fopen (argvAt argv 2) "r" true, .fclose (argvAt argv 2)] ∧
      submittedLines (callsSince g (setup hw argv g).2) = []) := by
  obtain ⟨k, hk⟩ := firstInvalid_isSome _ hbad
  constructor
  · intro hopen
    rw [createSequence_invalid hw argv g text k hopen hk]
    exact ⟨rfl, rfl⟩
  · intro hprobe hbegin hopen
    have hcs := createSequence_invalid hw argv (g.emit .texoBeginSequence) text k
      (by simpa [Globals.now, Globals.emit] using hopen) hk
    rw [setup_eq hw argv g hprobe hbegin, hcs]
    by_cases hend : wrap32 (hw.texoEndSequence (g.trace.length + 1 + 1 + 1)) = -1 <;>
      simp [hend, callsSince, Globals.now, Globals.emit, Globals.log, printStats,
        submittedLines, Event.asLine]

/-- An instance: the focus distance 5 makes `createSequence` fail, and no
line is submitted by `setup`. -/
theorem createSequence_rejects_out_of_range_witness :
    (createSequence shortFocusHardware ["texo", "singleRx", "config.txt"] readyGlobals).1
      = false ∧
    submittedLines (callsSince readyGlobals
      (setup shortFocusHardware ["texo", "singleRx", "config.txt"] readyGlobals).2) = [] :=
  have h := createSequence_rejects_out_of_range shortFocusHardware
    ["texo", "singleRx", "config.txt"] readyGlobals "5 0 0 flat 60 1" (by decide)
  ⟨(h.1 rfl).1, (h.2 rfl rfl rfl).2⟩

/-! ## Data writer -/

/-- C4: with `n` the collected-frame count and `size` the frame size the
hardware reports, `saveData` fails when `n < 1` without any `fopen` (its only
calls are the two queries); when `n ≥ 1` and the output file can be created it
returns `true` and makes exactly one `fwrite`, of `min n 16` items of `size`
bytes taken from `texoGetCineStart(0)`; no `fwrite` of `saveData` ever has a
count above `MAX_SAVED_FRAMES = 16`. -/
theorem saveData_writes_min_frames (hw : Hardware) (argv : List String) (g : Globals) :
    (wrap32 (hw.texoGetCollectedFrameCount g.now) < 1 →
      (saveData hw argv g).1 = false ∧
      callsSince g (saveData hw argv g).2 = [.texoGetCollectedFrameCount, .texoGetFrameSize]) ∧
    (1 ≤ wrap32 (hw.texoGetCollectedFrameCount g.now) →
      hw.fopenWrite (g.now + 2) (rawFileName g.probeId (argvAt argv 1) g.scanline_buf) = true →
      (saveData hw argv g).1 = true ∧
      callsSince g (saveData hw argv g).2 =
        [.texoGetCollectedFrameCount, .texoGetFrameSize,
         .fopen (rawFileName g.probeId (argvAt argv 1) g.scanline_buf) "wb+" true,
         .fprintf g.fpLog "Frame size: %d\nAcquired frames: %d "
           [.int (wrap32 (hw.texoGetFrameSize (g.now + 1))),
            .int (wrap32 (hw.texoGetCollectedFrameCount g.now))],
         .fprintf g.fpLog "Saved frames: %d\n\n"
           [.int (min (wrap32 (hw.texoGetCollectedFrameCount g.now)) 16)],
         .texoGetCineStart 0,
         .fwrite (rawFileName g.probeId (argvAt argv 1) g.scanline_buf)
           (wrap32 (hw.texoGetFrameSize (g.now + 1)))
           (min (wrap32 (hw.texoGetCollectedFrameCount g.now)) 16),
         .fclose (rawFileName g.probeId (argvAt argv 1) g.scanline_buf)]) ∧
    (∀ name size count, Event.fwrite name size count ∈ callsSince g (saveData hw argv g).2 →
      count ≤ MAX_SAVED_FRAMES ∧ count = min (wrap32 (hw.texoGetCollectedFrameCount g.now)) 16) := by
  have hmin : ∀ n : Int, (if n > MAX_SAVED_FRAMES then MAX_SAVED_FRAMES else n) = min n 16 := by
    intro n
    simp only [MAX_SAVED_FRAMES, min_def]
    split_ifs <;> omega
  refine ⟨?_, ?_, ?_⟩
  · intro hn
    simp only [Globals.now] at hn
    simp [saveData, Globals.now, Globals.emit, callsSince, hn]
  · intro hn hopen
    have hn2 : ¬ wrap32 (hw.texoGetCollectedFrameCount g.trace.length) < 1 := by
      simpa [Globals.now] using hn
    have hopen2 : hw.fopenWrite (g.trace.length + 1 + 1)
        (rawFileName g.probeId (argvAt argv 1) g.scanline_buf) = true := hopen
    simp only [saveData, Globals.now, Globals.emit, Globals.log, callsSince, hn2, hmin,
      List.length_append, List.length_singleton, hopen2]
    simp
  · intro name size count hmem
    by_cases hn : wrap32 (hw.texoGetCollectedFrameCount g.trace.length) < 1
    · simp [saveData, Globals.now, Globals.emit, callsSince, hn] at hmem
    · by_cases hopen : hw.fopenWrite (g.trace.length + 1 + 1)
          (rawFileName g.probeId (argvAt argv 1) g.scanline_buf) = true
      · simp only [saveData, Globals.now, Globals.emit, Globals.log, callsSince, hn, hmin,
          List.length_append, List.length_singleton, hopen] at hmem
        simp at hmem
        obtain ⟨_, _, hc⟩ := hmem
        rw [hc]
        simp only [MAX_SAVED_FRAMES, Globals.now]
        exact ⟨min_le_right _ _, trivial⟩
      · simp only [saveData, Globals.now, Globals.emit, Globals.log, callsSince, hn, hmin,
          List.length_append, List.length_singleton, hopen] at hmem
        simp at hmem

/-- An instance: twenty collected frames of 4096 bytes give one write of
sixteen frames. -/
theorem saveData_writes_min_frames_witness :
    (saveData nominalHardware ["texo", "singleRx", "config.txt"] readyGlobals).1 = true ∧
    Event.fwrite "probeId_11_singleRx_scanline_0.raw" 4096 16 ∈
      callsSince readyGlobals
        (saveData nominalHardware ["texo", "singleRx", "config.txt"] readyGlobals).2 :=
  have h := (saveData_writes_min_frames nominalHardware ["texo", "singleRx", "config.txt"]
    readyGlobals).2.1 (by decide) rfl
  ⟨h.1, by rw [h.2]; decide⟩

/-! ## Run/stop controller -/

/-- C5, as stated, fails: after a successful `stop()` of a running session
`validsequence` is still `true`, and a `run()` issued directly after it, with
no new build, succeeds. -/
theorem stop_success_keeps_sequence :
    (stop nominalHardware acquiringGlobals).1 = true ∧
    (stop nominalHardware acquiringGlobals).2.validsequence = true ∧
    (stop nominalHardware acquiringGlobals).2.running = false ∧
    (run nominalHardware (stop nominalHardware acquiringGlobals).2).1 = true := by
  decide

/-- C5, amended: `stop()` returns what the hardware stop returns.  When it
fails, `validsequence` becomes `false` and `running` is unchanged.  When it
succeeds, `running` becomes `false` and `validsequence` is unchanged; a
`run()` issued directly after a successful stop of a valid sequence is then
not rejected: it makes the hardware run call and returns what that call
returns. -/
theorem stop_invalidates_on_failure_only (hw : Hardware) (g : Globals) :
    (stop hw g).1 = hw.texoStopImage g.now ∧
    ((stop hw g).1 = false →
      (stop hw g).2.validsequence = false ∧ (stop hw g).2.running = g.running) ∧
    ((stop hw g).1 = true →
      (stop hw g).2.running = false ∧ (stop hw g).2.validsequence = g.validsequence) ∧
    ((stop hw g).1 = true → g.validsequence = true →
      (run hw (stop hw g).2).1 = hw.texoRunImage (stop hw g).2.now ∧
      callsSince (stop hw g).2 (run hw (stop hw g).2).2 = [.texoRunImage]) := by
  by_cases hs : hw.texoStopImage g.trace.length = true
  · refine ⟨?_, ?_, ?_, ?_⟩
    · simp [stop, Globals.now, hs]
    · simp [stop, Globals.now, hs]
    · simp [stop, Globals.now, Globals.emit, Globals.log, hs]
    · intro _ hv
      by_cases hr : hw.texoRunImage (g.trace.length + 1 + 1 + 1 + 1) = true <;>
        simp [stop, run, Globals.now, Globals.emit, Globals.log, hs, hv, hr, callsSince]
  · refine ⟨?_, ?_, ?_, ?_⟩
    · simp [stop, Globals.now, hs]
    · simp [stop, Globals.now, Globals.emit, hs]
    · simp [stop, Globals.now, hs]
    · simp [stop, Globals.now, hs]

/-- An instance: after the successful stop of an acquiring session, `run()`
makes the hardware call and succeeds. -/
theorem stop_invalidates_on_failure_only_witness :
    (run nominalHardware (stop nominalHardware acquiringGlobals).2).1 = true ∧
    callsSince (stop nominalHardware acquiringGlobals).2
      (run nominalHardware (stop nominalHardware acquiringGlobals).2).2 = [.texoRunImage] :=
  (stop_invalidates_on_failure_only nominalHardware acquiringGlobals).2.2.2 rfl rfl

/-- C6 fails on the code: when `texoSelectProbe` reports failure,
`selectProbe` makes no activation call, yet it sets `validprobe` and returns
`true`. -/
theorem selectProbe_succeeds_without_probe :
    (selectProbe noProbeHardware 0 {}).1 = true ∧
    (selectProbe noProbeHardware 0 {}).2.validprobe = true ∧
    (selectProbe noProbeHardware 0 {}).2.trace = [.texoGetProbeCode 0, .texoSelectProbe 11] := by
  decide

/-- C9: `run()` returns `true` exactly when the sequence is valid, the
session is not running and the hardware run call succeeds.  With no valid
sequence, or while running, it returns `false` and leaves the globals and the
trace as they were (no hardware call).  On success the only changes are
`running = true` and the one call `texoRunImage`. -/
theorem run_succeeds_iff (hw : Hardware) (g : Globals) :
    ((run hw g).1 = true ↔
      g.validsequence = true ∧ g.running = false ∧ hw.texoRunImage g.now = true) ∧
    (g.validsequence = false ∨ g.running = true →
      (run hw g).1 = false ∧ (run hw g).2 = g) ∧
    ((run hw g).1 = true →
      (run hw g).2 = { g with running := true, trace := g.trace ++ [.texoRunImage] }) := by
  cases hv : g.validsequence <;> cases hr : g.running <;>
    by_cases hh : hw.texoRunImage g.trace.length = true <;>
    simp [run, Globals.now, Globals.emit, hv, hr, hh]

/-- An instance: with a valid sequence, not running, and a hardware run that
succeeds, `run()` returns `true` and sets `running`. -/
theorem run_succeeds_iff_witness :
    (run nominalHardware sequenceReadyGlobals).1 = true ∧
    (run nominalHardware sequenceReadyGlobals).2 =
      { sequenceReadyGlobals with
        running := true, trace := sequenceReadyGlobals.trace ++ [.texoRunImage] } :=
  have h := run_succeeds_iff nominalHardware sequenceReadyGlobals
  ⟨h.1.mpr ⟨rfl, rfl, rfl⟩, h.2.2 (h.1.mpr ⟨rfl, rfl, rfl⟩)⟩

/-! ## Exit status -/

/-- C7 fails on the code: when `setup` fails for scanline 0 (begin-sequence
refused), `main` executes that one step, goes to `goodbye` and returns `0`,
as does every pass through `goodbye`; a failed `texoInit`, by contrast,
returns `-1`. -/
theorem main_returns_zero_after_failed_setup :
    (main beginRefusedHardware ["texo", "singleRx", "config.txt"]).steps =
      [⟨.setup, 0, false⟩] ∧
    (main beginRefusedHardware ["texo", "singleRx", "config.txt"]).status = 0 ∧
    (main initFailsHardware ["texo", "singleRx", "config.txt"]).status = -1 ∧
    (∀ (steps : List StepRec) (g : Globals), (goodbye steps g).status = 0) :=
  ⟨by decide, by decide, by decide, fun _ _ => rfl⟩

/-! ## Scanline loop -/

theorem addLines_marks (hw : Hardware) (tx : TransmitParams) :
    ∀ (n : Nat) (i : Int) (rx : ReceiveParams) (g : Globals),
      saveMarks (addLines hw tx n i rx g).2.trace = saveMarks g.trace := by
  intro n
  induction n with
  | zero => intro i rx g; rfl
  | succ n ih =>
    intro i rx g
    simp only [addLines]
    split
    · simp [saveMarks, isSaveMark, Globals.log, Globals.emit]
    · rw [ih]
      simp [saveMarks, isSaveMark, Globals.log, Globals.emit]

theorem sequenceParams_marks (hw : Hardware) (cfg : Config) (g : Globals) :
    saveMarks (sequenceParams hw cfg g).2.trace = saveMarks g.trace := by
  by_cases hc : cfg.useCustomTxFrequency = 0 <;>
    simp [sequenceParams, Globals.log, Globals.emit, hc, saveMarks, isSaveMark]

theorem createSequence_marks (hw : Hardware) (argv : List String) (g : Globals) :
    saveMarks (createSequence hw argv g).2.trace = saveMarks g.trace := by
  cases hopen : hw.fopenRead g.now (argvAt argv 2) with
  | none => simp [createSequence, hopen, saveMarks, isSaveMark, Globals.emit]
  | some text =>
    cases hval : firstInvalid (fscanfConfig text.data).2 with
    | some k => simp [createSequence, hopen, hval, saveMarks, isSaveMark, Globals.emit]
    | none =>
      simp only [createSequence, hopen, hval, buildLines]
      rw [addLines_marks, sequenceParams_marks]
      simp [saveMarks, isSaveMark, Globals.emit]

theorem loopVars_emit (g : Globals) (e : Event) : (g.emit e).loopVars = g.loopVars := rfl

theorem loopVars_log (g : Globals) (fmt : String) (args : List Arg) :
    (g.log fmt args).loopVars = g.loopVars := rfl

theorem saveMarks_emit (g : Globals) (e : Event) :
    saveMarks (g.emit e).trace = saveMarks g.trace ++ (if isSaveMark e then [e] else []) := by
  by_cases h : isSaveMark e = true <;> simp [saveMarks, Globals.emit, h]

theorem saveMarks_log (g : Globals) (fmt : String) (args : List Arg) :
    saveMarks (g.log fmt args).trace =
      saveMarks g.trace ++ (if isSaveMark (.fprintf g.fpLog fmt args) then
        [.fprintf g.fpLog fmt args] else []) :=
  saveMarks_emit g _

theorem createSequence_vars (hw : Hardware) (argv : List String) (g : Globals) :
    (createSequence hw argv g).2.loopVars = g.loopVars := by
  obtain ⟨m, X, cfg, freq, t, _, htr, _⟩ := createSequence_spec hw argv g
  rw [htr]
  rfl

theorem printStats_vars (hw : Hardware) (g : Globals) :
    (printStats hw g).loopVars = g.loopVars := by
  simp [printStats, Globals.log, Globals.emit, Globals.loopVars]

theorem printStats_marks (hw : Hardware) (g : Globals) :
    saveMarks (printStats hw g).trace = saveMarks g.trace := by
  simp [printStats, Globals.log, Globals.emit, saveMarks, isSaveMark]

theorem setup_vars (hw : Hardware) (argv : List String) (g : Globals) :
    (setup hw argv g).2.loopVars = g.loopVars ∧
    saveMarks (setup hw argv g).2.trace = saveMarks g.trace := by
  have hv := createSequence_vars hw argv (g.emit .texoBeginSequence)
  have hm := createSequence_marks hw argv (g.emit .texoBeginSequence)
  simp only [loopVars_emit, saveMarks_emit, isSaveMark, Bool.false_eq_true, if_false,
    List.append_nil] at hv hm
  by_cases hp : g.validprobe = true
  · by_cases hb : hw.texoBeginSequence g.now = true
    · rw [setup_eq hw argv g hp hb]
      split_ifs
      · simp only [loopVars_emit, saveMarks_emit, isSaveMark, Bool.false_eq_true, if_false,
          List.append_nil, hv, hm, and_self]
      · constructor
        · show (printStats hw _).loopVars = _
          simp only [printStats_vars, loopVars_emit, hv]
        · show saveMarks (printStats hw _).trace = _
          simp only [printStats_marks, saveMarks_emit, isSaveMark, Bool.false_eq_true,
            if_false, List.append_nil, hm]
    · simp only [Bool.not_eq_true] at hb
      simp only [setup, hp, hb, Bool.not_true, Bool.false_eq_true, if_false, Bool.not_false,
        if_true]
      simp only [loopVars_emit, saveMarks_emit, isSaveMark, Bool.false_eq_true, if_false,
          List.append_nil, and_self]
  · simp only [Bool.not_eq_true] at hp
    simp only [setup, hp, Bool.not_false, if_true, and_self]

theorem run_vars (hw : Hardware) (g : Globals) :
    (run hw g).2.loopVars = g.loopVars ∧
    saveMarks (run hw g).2.trace = saveMarks g.trace := by
  simp only [run]
  split_ifs <;> simp [Globals.loopVars, Globals.emit, saveMarks, isSaveMark]

theorem stop_vars (hw : Hardware) (g : Globals) :
    (stop hw g).2.loopVars = g.loopVars ∧
    saveMarks (stop hw g).2.trace = saveMarks g.trace := by
  simp only [stop]
  split_ifs <;> simp [Globals.loopVars, Globals.emit, Globals.log, saveMarks, isSaveMark]

theorem saveData_vars (hw : Hardware) (argv : List String) (g : Globals) :
    (saveData hw argv g).2.loopVars = g.loopVars ∧
    ((saveData hw argv g).1 = true →
      saveMarks (saveData hw argv g).2.trace = saveMarks g.trace ++
        [.fopen (rawFileName g.probeId (argvAt argv 1) g.scanline_buf) "wb+" true]) := by
  by_cases hn : wrap32 (hw.texoGetCollectedFrameCount g.trace.length) < 1
  · simp [saveData, Globals.now, Globals.emit, Globals.loopVars, hn]
  · by_cases hopen : hw.fopenWrite (g.trace.length + 1 + 1)
        (rawFileName g.probeId (argvAt argv 1) g.scanline_buf) = true
    · simp only [saveData, Globals.now, Globals.emit, Globals.log, Globals.loopVars, hn,
        List.length_append, List.length_singleton, hopen]
      simp [saveMarks, isSaveMark]
    · simp only [saveData, Globals.now, Globals.emit, Globals.log, Globals.loopVars, hn,
        List.length_append, List.length_singleton, hopen]
      simp

theorem sessionVars_of_loopVars (g h : Globals) (e : h.loopVars = g.loopVars) :
    h.sessionVars = g.sessionVars ∧ h.scanline_buf = g.scanline_buf := by
  simp only [Globals.loopVars, Prod.mk.injEq] at e
  simp only [Globals.sessionVars, Prod.mk.injEq]
  tauto

theorem scanBody_cases (hw : Hardware) (argv : List String) (g : Globals) :
    (scanBody hw argv g).g.sessionVars = g.sessionVars ∧
    (((scanBody hw argv g).completed = false ∧
        ((scanBody hw argv g).steps = [⟨.setup, g.scanline, false⟩] ∨
         (scanBody hw argv g).steps = [⟨.setup, g.scanline, true⟩, ⟨.run, g.scanline, false⟩] ∨
         (scanBody hw argv g).steps = [⟨.setup, g.scanline, true⟩, ⟨.run, g.scanline, true⟩,
            ⟨.stop, g.scanline, false⟩] ∨
         (scanBody hw argv g).steps = [⟨.setup, g.scanline, true⟩, ⟨.run, g.scanline, true⟩,
            ⟨.stop, g.scanline, true⟩, ⟨.save, g.scanline, false⟩])) ∨
     ((scanBody hw argv g).completed = true ∧
        (scanBody hw argv g).steps = [⟨.setup, g.scanline, true⟩, ⟨.run, g.scanline, true⟩,
            ⟨.stop, g.scanline, true⟩, ⟨.save, g.scanline, true⟩] ∧
        saveMarks (scanBody hw argv g).g.trace = saveMarks g.trace ++
          marksOf g.probeId (argvAt argv 1) g.fpLog (wrap32 (g.numOfScanlines - 1))
            g.scanline)) := by
  obtain ⟨hv1, hm1⟩ := setup_vars hw argv { g with scanline_buf := toString g.scanline }
  generalize hg1 : (setup hw argv { g with scanline_buf := toString g.scanline }) = r1 at hv1 hm1
  obtain ⟨hv2, hm2⟩ := run_vars hw r1.2
  generalize hg2 : run hw r1.2 = r2 at hv2 hm2
  obtain ⟨hv3, hm3⟩ := stop_vars hw (r2.2.log "System running\n" [])
  generalize hg3 : stop hw (r2.2.log "System running\n" []) = r3 at hv3 hm3
  obtain ⟨hv4, hm4⟩ := saveData_vars hw argv (r3.2.log "Acquisition stopped\n" [])
  generalize hg4 : saveData hw argv (r3.2.log "Acquisition stopped\n" []) = r4 at hv4 hm4
  rw [loopVars_log] at hv3 hv4
  rw [saveMarks_log] at hm3 hm4
  have hno3 : isSaveMark (.fprintf r2.2.fpLog "System running\n" []) = false := by
    simp [isSaveMark]
  have hno4 : isSaveMark (.fprintf r3.2.fpLog "Acquisition stopped\n" []) = false := by
    simp [isSaveMark]
  simp only [hno3, hno4, Bool.false_eq_true, if_false, List.append_nil] at hm3 hm4
  have e1 : r1.2.sessionVars = g.sessionVars ∧ r1.2.scanline_buf = toString g.scanline :=
    sessionVars_of_loopVars _ _ hv1
  have e2 : r2.2.sessionVars = g.sessionVars ∧ r2.2.scanline_buf = toString g.scanline :=
    sessionVars_of_loopVars _ _ (hv2.trans hv1)
  have e3 : r3.2.sessionVars = g.sessionVars ∧ r3.2.scanline_buf = toString g.scanline :=
    sessionVars_of_loopVars _ _ (hv3.trans (hv2.trans hv1))
  have e4 : r4.2.sessionVars = g.sessionVars ∧ r4.2.scanline_buf = toString g.scanline :=
    sessionVars_of_loopVars _ _ (hv4.trans (hv3.trans (hv2.trans hv1)))
  cases h1 : r1.1
  · refine ⟨?_, ?_⟩
    · simp only [scanBody, hg1, h1, Bool.not_false, if_true]
      exact e1.1
    · simp [scanBody, hg1, h1]
  cases h2 : r2.1
  · refine ⟨?_, ?_⟩
    · simp only [scanBody, hg1, hg2, h1, h2, Bool.not_false, Bool.not_true, if_true,
        Bool.false_eq_true, if_false]
      exact e2.1
    · simp [scanBody, hg1, hg2, h1, h2]
  cases h3 : r3.1
  · refine ⟨?_, ?_⟩
    · simp only [scanBody, hg1, hg2, hg3, h1, h2, h3, Bool.not_false, Bool.not_true, if_true,
        Bool.false_eq_true, if_false]
      exact e3.1
    · simp [scanBody, hg1, hg2, hg3, h1, h2, h3]
  cases h4 : r4.1
  · refine ⟨?_, ?_⟩
    · simp only [scanBody, hg1, hg2, hg3, hg4, h1, h2, h3, h4, Bool.not_false, Bool.not_true,
        if_true, Bool.false_eq_true, if_false]
      exact e4.1
    · simp [scanBody, hg1, hg2, hg3, hg4, h1, h2, h3, h4]
  · have hs4 := e4.1
    have hs3 := e3.1
    simp only [Globals.sessionVars, Prod.mk.injEq] at hs4 hs3
    obtain ⟨hsc, hnum, hid, hlog⟩ := hs4
    obtain ⟨_, _, hid3, _⟩ := hs3
    have hid3b : (r3.2.log "Acquisition stopped\n" []).probeId = g.probeId := hid3
    have hbuf3 : (r3.2.log "Acquisition stopped\n" []).scanline_buf = toString g.scanline :=
      e3.2
    refine ⟨?_, ?_⟩
    · simp only [scanBody, hg1, hg2, hg3, hg4, h1, h2, h3, h4, Bool.not_true,
        Bool.false_eq_true, if_false]
      exact e4.1
    · refine Or.inr ?_
      simp only [scanBody, hg1, hg2, hg3, hg4, h1, h2, h3, h4, Bool.not_true,
        Bool.false_eq_true, if_false, true_and]
      rw [saveMarks_log, hm4 h4, hm3, hm2, hm1, hsc, hnum, hlog, hid3b, hbuf3]
      simp [marksOf, isSaveMark]

theorem mem_dropLast_append {α : Type} (l1 l2 : List α) (x : α)
    (h : x ∈ (l1 ++ l2).dropLast) : x ∈ l1 ∨ x ∈ l2.dropLast := by
  cases l2 with
  | nil =>
    rw [List.append_nil] at h
    exact Or.inl (List.mem_of_mem_dropLast h)
  | cons y ys =>
    rw [List.dropLast_append_of_ne_nil _ (List.cons_ne_nil y ys)] at h
    exact List.mem_append.mp h

theorem scanLoop_spec (hw : Hardware) (argv : List String) :
    ∀ (n : Nat) (g : Globals), 0 ≤ g.scanline → g.scanline + n ≤ 2147483647 →
      ((scanLoop hw argv n g).steps.map StepRec.key =
        (scheduleFrom g.scanline n).take (scanLoop hw argv n g).steps.length) ∧
      (∀ r ∈ (scanLoop hw argv n g).steps.dropLast, r.ok = true) ∧
      ((∀ r ∈ (scanLoop hw argv n g).steps, r.ok = true) →
        (scanLoop hw argv n g).completed = true) ∧
      ((scanLoop hw argv n g).completed = true →
        (scanLoop hw argv n g).steps.length = 4 * n ∧
        saveMarks (scanLoop hw argv n g).g.trace = saveMarks g.trace ++
          marksFrom g.probeId (argvAt argv 1) g.fpLog (wrap32 (g.numOfScanlines - 1))
            g.scanline n) := by
  intro n
  induction n with
  | zero =>
    intro g _ _
    simp [scanLoop, scheduleFrom, marksFrom]
  | succ n ih =>
    intro g h0 hmax
    obtain ⟨hvars, hcase⟩ := scanBody_cases hw argv g
    rcases hcase with ⟨hc, hsteps⟩ | ⟨hc, hsteps, hmarks⟩
    · have hout : scanLoop hw argv (n + 1) g = scanBody hw argv g := by
        simp [scanLoop, hc]
      rw [hout]
      rcases hsteps with hs | hs | hs | hs <;>
        simp [hs, hc, scheduleFrom, stepsOf, StepRec.key]
    · simp only [Globals.sessionVars, Prod.mk.injEq] at hvars
      obtain ⟨hsc, hnum, hid, hlog⟩ := hvars
      have hw32 : wrap32 ((scanBody hw argv g).g.scanline + 1) = g.scanline + 1 := by
        rw [hsc]
        exact wrap32_of_range _ (by omega) (by omega)
      obtain ⟨ia, ib, ic, id⟩ := ih
        { (scanBody hw argv g).g with scanline := wrap32 ((scanBody hw argv g).g.scanline + 1) }
        (by show 0 ≤ wrap32 _; rw [hw32]; omega)
        (by show wrap32 _ + (n : Int) ≤ _; rw [hw32]; push_cast at hmax; omega)
      generalize hrest : scanLoop hw argv n
        { (scanBody hw argv g).g with
          scanline := wrap32 ((scanBody hw argv g).g.scanline + 1) } = rest at ia ib ic id
      have hout : scanLoop hw argv (n + 1) g =
          ⟨rest.completed, (scanBody hw argv g).steps ++ rest.steps, rest.g⟩ := by
        simp [scanLoop, hc, hrest]
      simp only [hw32, hnum, hid, hlog] at ia id
      rw [hout]
      refine ⟨?_, ?_, ?_, ?_⟩
      · simp only [List.map_append, ia, hsteps, scheduleFrom, stepsOf, List.length_append,
          List.map_cons, List.map_nil, StepRec.key, List.length_cons, List.length_nil,
          List.cons_append, List.nil_append, Nat.zero_add]
        rfl
      · intro r hr
        rcases mem_dropLast_append _ _ _ hr with h | h
        · rw [hsteps] at h
          simp at h
          rcases h with h | h | h | h <;> rw [h]
        · exact ib r h
      · intro hall
        exact ic (fun r hr => hall r (List.mem_append_right _ hr))
      · intro hcomp
        obtain ⟨hlen, hm⟩ := id hcomp
        refine ⟨?_, ?_⟩
        · simp only [List.length_append, hlen, hsteps]
          simp
          omega
        · show saveMarks rest.g.trace = _
          rw [hm]
          show saveMarks (scanBody hw argv g).g.trace ++ _ = _
          rw [hmarks, marksFrom, List.append_assoc]

theorem selectProbe_marks (hw : Hardware) (c : Int) (g : Globals) :
    saveMarks (selectProbe hw c g).2.trace = saveMarks g.trace := by
  simp only [selectProbe]
  split_ifs <;> simp [Globals.emit, saveMarks, isSaveMark]

theorem startup_ok (hw : Hardware) (argv : List String) (g0 : Globals)
    (h : startup hw argv = .ok g0) :
    (argvAt argv 1 = "phasedArray" ∨ argvAt argv 1 = "singleRx") ∧
    g0.scanline = 0 ∧
    g0.numOfScanlines = (if argvAt argv 1 = "phasedArray" then 64 else 65) ∧
    g0.fpLog = true ∧ saveMarks g0.trace = [] := by
  simp only [startup] at h
  split_ifs at h with h1 h2 h3 h4 h5
  have hmode : argvAt argv 1 = "phasedArray" ∨ argvAt argv 1 = "singleRx" := by
    by_contra hcon
    exact h2 (not_or.mp hcon)
  have hopen : ∀ b : Bool, (!b) ≠ true → b = true := by
    intro b hb; cases b <;> simp_all
  have h5b := hopen _ h5
  injection h with h
  subst h
  refine ⟨hmode, ?_, ?_, ?_, ?_⟩
  · simp only [selectMode]
    split_ifs <;> rfl
  · simp only [selectMode]
    rcases hmode with hm | hm
    · simp [hm]
    · simp [hm]
  · simp only [selectMode]
    split_ifs <;> exact h5b
  · have hsel := selectProbe_marks hw 0
      ((((({ channels := 64 } : Globals).emit .GetLocalTime).emit (.texoInit 3 4 64)).emit
        .texoSetCallback).emit .texoClearTGCs |>.emit .texoAddTGCFixed |>.emit (.texoSetPower 10))
    simp only [selectMode]
    split_ifs <;>
      simp [saveMarks, isSaveMark, Globals.emit, Globals.log] at hsel ⊢ <;>
      exact hsel

theorem rawFileName_injective (probeId : Int) (mode a b : String)
    (h : rawFileName probeId mode a = rawFileName probeId mode b) : a = b := by
  have hd := congrArg String.data h
  simp only [rawFileName, String.data_append] at hd
  have h1 := List.append_cancel_right hd
  have h2 := List.append_cancel_left h1
  exact String.ext h2

theorem fopenNames_marksFrom (probeId : Int) (mode : String) (fpLog : Bool) (total : Int) :
    ∀ (n : Nat) (s : Int),
      (marksFrom probeId mode fpLog total s n).filterMap Event.fopenName =
        (suffixesFrom s n).map (rawFileName probeId mode) := by
  intro n
  induction n with
  | zero => intro s; rfl
  | succ n ih =>
    intro s
    simp only [marksFrom, marksOf, suffixesFrom, List.cons_append, List.nil_append,
      List.filterMap_cons, Event.fopenName, List.map_cons, ih]

theorem suffixes_nodup : (suffixesFrom 0 65).Nodup := by
  decide!

/-- C8: in a session that reaches the scanline loop, with `n = 64` in mode
`phasedArray` and `n = 65` in mode `singleRx`, the executed steps are a prefix
of the schedule `setup(0), run(0), stop(0), save(0), ..., save(n-1)`; every
executed step but the last succeeded, so the prefix ends at the first failing
step; when no step fails the executed steps are the whole schedule.  In mode
`singleRx` with every step succeeding, the save marks of the trace are, for
`k = 0..64` in order, the creation of the raw file with scanline suffix `k`
followed by the log entry `Data of scanline #k/64 saved`: 65 raw files, with
pairwise distinct names. -/
theorem main_steps_follow_schedule (hw : Hardware) (argv : List String) (g0 : Globals)
    (hstart : startup hw argv = .ok g0) :
    ((main hw argv).steps.map StepRec.key =
      (schedule (if argvAt argv 1 = "phasedArray" then 64 else 65)).take
        (main hw argv).steps.length) ∧
    (∀ r ∈ (main hw argv).steps.dropLast, r.ok = true) ∧
    ((∀ r ∈ (main hw argv).steps, r.ok = true) →
      (main hw argv).steps.map StepRec.key =
        schedule (if argvAt argv 1 = "phasedArray" then 64 else 65)) ∧
    (argvAt argv 1 = "singleRx" → (∀ r ∈ (main hw argv).steps, r.ok = true) →
      (main hw argv).steps.map StepRec.key = schedule 65 ∧
      saveMarks (main hw argv).g.trace = marksFrom g0.probeId "singleRx" true 64 0 65 ∧
      ((saveMarks (main hw argv).g.trace).filterMap Event.fopenName).length = 65 ∧
      ((saveMarks (main hw argv).g.trace).filterMap Event.fopenName).Nodup) := by
  obtain ⟨hmode, hsc, hnum, hlog, hmarks0⟩ := startup_ok hw argv g0 hstart
  have hn : g0.numOfScanlines.toNat = (if argvAt argv 1 = "phasedArray" then 64 else 65) := by
    rw [hnum]
    split_ifs <;> rfl
  have hn65 : (if argvAt argv 1 = "phasedArray" then 64 else 65 : Nat) ≤ 65 := by
    split_ifs <;> omega
  have hsteps : (main hw argv).steps = (scanLoop hw argv g0.numOfScanlines.toNat g0).steps := by
    simp [main, hstart, goodbye]
  have htrace : saveMarks (main hw argv).g.trace =
      saveMarks (scanLoop hw argv g0.numOfScanlines.toNat g0).g.trace := by
    simp only [main, hstart, goodbye]
    split_ifs <;> simp [saveMarks, isSaveMark, Globals.emit, Globals.log]
  obtain ⟨ha, hb, hc, hd⟩ := scanLoop_spec hw argv g0.numOfScanlines.toNat g0
    (by rw [hsc]) (by rw [hsc, hn]; push_cast; omega)
  rw [hsteps, htrace]
  rw [hsc, hmarks0, hlog, List.nil_append] at hd
  rw [hsc] at ha
  rw [hn] at ha hb hc hd ⊢
  have hlenS : ∀ (m : Nat) (s : Int), (scheduleFrom s m).length = 4 * m := by
    intro m
    induction m with
    | zero => intro s; rfl
    | succ m ihm =>
      intro s
      simp only [scheduleFrom, stepsOf, List.length_append, ihm, List.length_cons,
        List.length_nil]
      omega
  have hwhole : (∀ r ∈ (scanLoop hw argv
        (if argvAt argv 1 = "phasedArray" then 64 else 65) g0).steps, r.ok = true) →
      (scanLoop hw argv (if argvAt argv 1 = "phasedArray" then 64 else 65) g0).steps.map
        StepRec.key = schedule (if argvAt argv 1 = "phasedArray" then 64 else 65) := by
    intro hall
    obtain ⟨hlen, _⟩ := hd (hc hall)
    rw [ha, schedule]
    apply List.take_of_length_le
    rw [hlen, hlenS]
  refine ⟨ha, hb, hwhole, ?_⟩
  intro hsingle hall
  have hne : argvAt argv 1 ≠ "phasedArray" := by
    rw [hsingle]
    decide
  have hw2 := hwhole hall
  obtain ⟨_, hm⟩ := hd (hc hall)
  simp only [hne, if_false] at hw2 hm hnum ⊢
  rw [hnum, hsingle, show wrap32 (65 - 1) = 64 by decide] at hm
  refine ⟨hw2, hm, ?_, ?_⟩
  · rw [hm, fopenNames_marksFrom]
    rfl
  · rw [hm, fopenNames_marksFrom]
    exact List.Nodup.map (fun a b h => rawFileName_injective _ _ a b h) suffixes_nodup

/-- An instance: the nominal `singleRx` session executes the whole schedule
of 65 scanlines and creates 65 raw files with distinct names. -/
theorem main_steps_follow_schedule_witness :
    (main nominalHardware ["texo", "singleRx", "config.txt"]).steps.map StepRec.key =
      schedule 65 ∧
    saveMarks (main nominalHardware ["texo", "singleRx", "config.txt"]).g.trace =
      marksFrom 11 "singleRx" true 64 0 65 ∧
    ((saveMarks (main nominalHardware ["texo", "singleRx", "config.txt"]).g.trace).filterMap
      Event.fopenName).length = 65 ∧
    ((saveMarks (main nominalHardware ["texo", "singleRx", "config.txt"]).g.trace).filterMap
      Event.fopenName).Nodup :=
  (main_steps_follow_schedule nominalHardware ["texo", "singleRx", "config.txt"] nominalStart
    rfl).2.2.2 rfl (by decide!)

/-! ## Configuration load -/

theorem fscanfConfig_cases (input : List Char) :
    ((fscanfConfig input).1 < 5 ∧ (fscanfConfig input).2.rxAcquisitionDepth = 0) ∨
    ((fscanfConfig input).1 = 5 ∧ (fscanfConfig input).2.rxDecimation = 0) ∨
    (fscanfConfig input).1 = 6 := by
  unfold fscanfConfig
  rcases h1 : scanInt input with _ | ⟨a, r1⟩
  · simp [h1]
  simp only [h1]
  rcases h2 : scanInt r1 with _ | ⟨b, r2⟩
  · simp [h2]
  simp only [h2]
  rcases h3 : scanInt r2 with _ | ⟨c, r3⟩
  · simp [h3]
  simp only [h3]
  rcases h4 : scanStr r3 with _ | ⟨s, r4⟩
  · simp [h4]
  simp only [h4]
  rcases h5 : scanInt r4 with _ | ⟨d, r5⟩
  · simp [h5]
  simp only [h5]
  rcases h6 : scanInt r5 with _ | ⟨e, r6⟩
  · simp [h6]
  simp [h6]

theorem fscanfConfig_short (input : List Char) (h : (fscanfConfig input).1 < 5) :
    (fscanfConfig input).2.rxAcquisitionDepth = 0 := by
  rcases fscanfConfig_cases input with h1 | h1 | h1
  · exact h1.2
  · omega
  · omega

theorem fscanfConfig_five (input : List Char) (h : (fscanfConfig input).1 = 5) :
    (fscanfConfig input).2.rxDecimation = 0 := by
  rcases fscanfConfig_cases input with h1 | h1 | h1
  · omega
  · exact h1.2
  · omega

/-- C10, as stated, fails: the file `50 0 0 flat 60` has five fields, and
`createSequence` returns `true` and submits 64 lines, every one with the
decimation `0` that the missing sixth field never overwrote. -/
theorem createSequence_accepts_five_fields :
    (fscanfConfig "50 0 0 flat 60".data).1 = 5 ∧
    (createSequence fiveFieldHardware ["texo", "singleRx", "config.txt"] readyGlobals).1
      = true ∧
    (submittedLines (callsSince readyGlobals
      (createSequence fiveFieldHardware ["texo", "singleRx", "config.txt"]
        readyGlobals).2)).length = 64 ∧
    (∀ line ∈ submittedLines (callsSince readyGlobals
      (createSequence fiveFieldHardware ["texo", "singleRx", "config.txt"] readyGlobals).2),
      line.2.decimation = 0) := by
  decide!

/-- C10, amended: `createSequence` returns `false`, with no hardware call and
no line submitted, when the configuration file cannot be opened and when
`fscanf` converts fewer than five fields (the acquisition depth then keeps
its initial `0`, which fails its range check).  When exactly the first five
fields are converted, the decimation keeps its initial value `0`, and with
focus distance and acquisition depth in range the build goes on with that
configuration. -/
theorem createSequence_config_load (hw : Hardware) (argv : List String) (g : Globals) :
    (hw.fopenRead g.now (argvAt argv 2) = none →
      createSequence hw argv g = (false, g.emit (.fopen (argvAt argv 2) "r" false))) ∧
    (∀ text, hw.fopenRead g.now (argvAt argv 2) = some text →
      (fscanfConfig text.data).1 < 5 →
      createSequence hw argv g =
        (false, { g with trace := g.trace ++
          [.fopen (argvAt argv 2) "r" true, .fclose (argvAt argv 2)] })) ∧
    (∀ text, hw.fopenRead g.now (argvAt argv 2) = some text →
      (fscanfConfig text.data).1 = 5 →
      (fscanfConfig text.data).2.rxDecimation = 0 ∧
      (10 ≤ (fscanfConfig text.data).2.txFocusDistance →
        (fscanfConfig text.data).2.txFocusDistance ≤ 300 →
        10 ≤ (fscanfConfig text.data).2.rxAcquisitionDepth →
        (fscanfConfig text.data).2.rxAcquisitionDepth ≤ 300 →
        createSequence hw argv g =
          buildLines hw (fscanfConfig text.data).2
            ((g.emit (.fopen (argvAt argv 2) "r" true)).emit (.fclose (argvAt argv 2))))) := by
  refine ⟨?_, ?_, ?_⟩
  · intro hopen
    simp [createSequence, hopen]
  · intro text hopen hshort
    have hdepth := fscanfConfig_short text.data hshort
    obtain ⟨k, hk⟩ := firstInvalid_isSome (fscanfConfig text.data).2
      (Or.inr (Or.inr (Or.inl (by rw [hdepth]; norm_num))))
    exact createSequence_invalid hw argv g text k hopen hk
  · intro text hopen hfive
    have hdec := fscanfConfig_five text.data hfive
    refine ⟨hdec, ?_⟩
    intro h1 h2 h3 h4
    have hvalid : firstInvalid (fscanfConfig text.data).2 = none := by
      unfold firstInvalid
      rw [hdec]
      split_ifs with c1 c2 c3
      · omega
      · omega
      · omega
      · rfl
    simp [createSequence, hopen, hvalid]

/-- An instance: the file `50 0 0 flat`, four fields, makes `createSequence`
fail after opening and closing the file. -/
theorem createSequence_config_load_witness :
    createSequence fourFieldHardware ["texo", "singleRx", "config.txt"] readyGlobals =
      (false, { readyGlobals with trace := readyGlobals.trace ++
        [.fopen (argvAt ["texo", "singleRx", "config.txt"] 2) "r" true,
         .fclose (argvAt ["texo", "singleRx", "config.txt"] 2)] }) :=
  (createSequence_config_load fourFieldHardware ["texo", "singleRx", "config.txt"]
    readyGlobals).2.1 "50 0 0 flat" rfl (by decide)

/-! ## Teardown -/

/-- C11 fails on the code: the code after `goodbye:` always makes the write
`End of acquisition...` to `fpLog`, with the handle as it is.  In the session
whose log file cannot be created, and in the session whose probe selection
fails, `fpLog` is NULL at teardown and the last call of `main` is that write
to the NULL handle; only the `fclose` is skipped. -/
theorem goodbye_writes_to_null_log :
    (∀ (steps : List StepRec) (g : Globals),
      Event.fprintf g.fpLog "End of acquisition.\n\nDate and time: %d_%d_%d-%d_%d_%d\n\n"
        timeStamp ∈ (goodbye steps g).g.trace) ∧
    (main logRefusedHardware ["texo", "singleRx", "config.txt"]).g.fpLog = false ∧
    (main logRefusedHardware ["texo", "singleRx", "config.txt"]).g.trace =
      [.GetLocalTime, .texoInit 3 4 64, .texoSetCallback, .texoClearTGCs, .texoAddTGCFixed,
       .texoSetPower 10, .texoGetProbeCode 0, .texoSelectProbe 11,
       .texoActivateProbeConnector 0, .texoGetProbeName 0,
       .fopen "probeId_11_singleRx.log" "w" false, .texoShutdown, .GetLocalTime,
       .fprintf false "End of acquisition.\n\nDate and time: %d_%d_%d-%d_%d_%d\n\n"
         timeStamp] ∧
    (main activationRefusedHardware ["texo", "singleRx", "config.txt"]).g.fpLog = false ∧
    (main activationRefusedHardware ["texo", "singleRx", "config.txt"]).g.trace =
      [.GetLocalTime, .texoInit 3 4 64, .texoSetCallback, .texoClearTGCs, .texoAddTGCFixed,
       .texoSetPower 10, .texoGetProbeCode 0, .texoSelectProbe 11,
       .texoActivateProbeConnector 0, .texoShutdown, .GetLocalTime,
       .fprintf false "End of acquisition.\n\nDate and time: %d_%d_%d-%d_%d_%d\n\n"
         timeStamp] := by
  refine ⟨?_, by decide, by decide, by decide, by decide⟩
  intro steps g
  simp only [goodbye, Globals.log, Globals.emit]
  split_ifs <;> simp

end Texo
